import Mathlib

/-!
# Verification of the JWT metrics proxy (algotrendy-localhost-ui-v2)

Shallow embedding of the Supabase Edge Function `metrics-proxy-jwt`
(source file `supabase/functions/metrics-proxy-jwt/index.ts`, v2.1.0) and of
the VPS-side JWT validator generated by `setup_jwt_auth.sh`
(`jwt_validator.py`, FastAPI + PyJWT, behind nginx `auth_request`).

Conventions of the embedding:
* machine clocks are passed explicitly (`now` parameters) instead of reading
  `Date.now()` / `datetime.now()`;
* JavaScript numbers are modelled as `ℚ` where division occurs, `Nat` for
  counters and millisecond latencies;
* the HMAC-SHA256 signature is modelled symbolically: a signed token records
  the key it was signed with, and signature verification compares that key
  with the verifier's key;
* fallible operations return `Except`/`Option`;
* upstream HTTP traffic is a parameter (`FetchOutcome` per endpoint).
-/

namespace MetricsProxy

/-- Minimal JSON value model for the duck-typed upstream payloads. -/
inductive Json where
  | null : Json
  | bool : Bool → Json
  | num  : ℚ → Json
  | str  : String → Json
  | arr  : List Json → Json
  | obj  : List (String × Json) → Json
deriving Inhabited

/-- JavaScript property access `j.k` on an object; `undefined` is `none`. -/
def Json.get : Json → String → Option Json
  | .obj fields, k => fields.lookup k
  | _, _ => none

/-- JavaScript truthiness of a JSON value. -/
def Json.truthy : Json → Bool
  | .null => false
  | .bool b => b
  | .num q => q != 0
  | .str s => s != ""
  | .arr _ => true
  | .obj _ => true

/-- Is the value JSON `null`? -/
def Json.isNull : Json → Bool
  | .null => true
  | .bool _ => false
  | .num _ => false
  | .str _ => false
  | .arr _ => false
  | .obj _ => false

/-- JavaScript `x || d` where `x` may be `undefined` (`none`). -/
def jsOr (x : Option Json) (d : Json) : Json :=
  match x with
  | some j => if j.truthy then j else d
  | none => d

/-- JavaScript `x || y` where both sides may be `undefined`. -/
def jsOrOpt (x y : Option Json) : Option Json :=
  match x with
  | some j => if j.truthy then some j else y
  | none => y

/-- Truthiness of an optional string (JS: `undefined` and `""` are falsy). -/
def optStrTruthy : Option String → Bool
  | some s => s != ""
  | none => false

-- ═══════════════════════════════════════════════════════════════════════════
-- CONFIGURATION (module-level constants of index.ts)
-- ═══════════════════════════════════════════════════════════════════════════

def INTERNAL_JWT_ISSUER : String := "supabase-metrics-proxy"
def INTERNAL_JWT_AUDIENCE : String := "vps-metrics-api"
def INTERNAL_JWT_TTL_SECONDS : Nat := 60
def API_VERSION : String := "v1"
def HEALTH_WINDOW_SIZE : Nat := 20

def ALLOWED_PATHS : List String :=
  ["/health", "/brokers/status", "/trades/live", "/trades/history",
   "/strategies/proving", "/strategies/promotions", "/metrics/gate-pressure"]

def AGGREGATE_ENDPOINTS : List String :=
  ["/brokers/status", "/trades/live", "/strategies/proving",
   "/strategies/promotions", "/metrics/gate-pressure"]

/-- Environment-derived configuration of the edge function
(`VPS_METRICS_ENDPOINT`, `INTERNAL_JWT_SECRET`; empty string when unset). -/
structure Config where
  vpsMetricsEndpoint : String
  internalJwtSecret : String
deriving DecidableEq, Repr

-- ═══════════════════════════════════════════════════════════════════════════
-- INTERNAL TOKEN MINTER (`createInternalJWT`)
-- ═══════════════════════════════════════════════════════════════════════════

/-- A signed internal JWT: the exact claim set produced by `createInternalJWT`
plus the protected-header algorithm and (symbolically) the HMAC key used by
`.sign(secret)`.  `iat`/`exp` are epoch seconds. -/
structure InternalJWT where
  sub : String
  email : String
  roles : List String
  aud : String
  iss : String
  iat : Nat
  exp : Nat
  alg : String
  key : String
deriving DecidableEq, Repr

/-- `createInternalJWT(userId, email, role)` from index.ts.  `now` is the
epoch-seconds clock used by jose's `setIssuedAt`/`setExpirationTime("60s")`.
Signing fails when the configured secret is empty: the WebCrypto runtime
rejects zero-length HMAC keys, which surfaces as a thrown error. -/
def createInternalJWT (userId email role : String) (secret : String)
    (now : Nat) : Except String InternalJWT :=
  if secret = "" then
    .error "HMAC key must not be empty"
  else
    .ok { sub := userId
          email := email
          roles := [role]
          aud := INTERNAL_JWT_AUDIENCE
          iss := INTERNAL_JWT_ISSUER
          iat := now
          exp := now + INTERNAL_JWT_TTL_SECONDS
          alg := "HS256"
          key := secret }

-- ═══════════════════════════════════════════════════════════════════════════
-- INTERNAL GATEKEEPER (`jwt_validator.py` behind nginx `auth_request`)
-- ═══════════════════════════════════════════════════════════════════════════

/-- Expected issuer constant of `jwt_validator.py`. -/
def EXPECTED_ISSUER : String := "supabase-metrics-proxy"
/-- Expected audience constant of `jwt_validator.py`. -/
def EXPECTED_AUDIENCE : String := "vps-metrics-api"

/-- The `Authorization` header as seen by `/validate`: absent, present but not
of the `Bearer <token>` form, or carrying a (symbolically) signed token. -/
inductive AuthHeader where
  | missing : AuthHeader
  | nonBearer (raw : String) : AuthHeader
  | bearer (tok : InternalJWT) : AuthHeader
deriving DecidableEq, Repr

/-- Result of the gatekeeper decision: HTTP 200 with the attribution headers
`X-Auth-User-Id`/`X-Auth-User-Email`, or an HTTP error with a detail string. -/
inductive GateDecision where
  | allow (userIdHeader emailHeader : String) : GateDecision
  | deny (status : Nat) (detail : String) : GateDecision
deriving DecidableEq, Repr

/-- `validate_jwt` of `jwt_validator.py`.  `secret` is the shared key read
from `.internal_jwt_secret`; `now` is epoch seconds.  PyJWT verifies the
signature while decoding, then validates registered claims; the except-blocks
map each failure to its own 401 detail.  Expiry uses PyJWT's
`exp <= now` test (leeway 0). -/
def validate_jwt (h : AuthHeader) (secret : String) (now : Nat) :
    GateDecision :=
  match h with
  | .missing => .deny 401 "Missing Authorization header"
  | .nonBearer _ => .deny 401 "Invalid Authorization format"
  | .bearer tok =>
    if tok.key ≠ secret then
      .deny 401 "Invalid token: Signature verification failed"
    else if tok.exp ≤ now then
      .deny 401 "Token expired"
    else if tok.iss ≠ EXPECTED_ISSUER then
      .deny 401 "Invalid issuer"
    else if tok.aud ≠ EXPECTED_AUDIENCE then
      .deny 401 "Invalid audience"
    else
      .allow tok.sub tok.email

/-- nginx `auth_request` gating of `location /`: the request is proxied to the
metrics API iff the validator answered 2xx (here: `allow`). -/
def nginxForwards : GateDecision → Bool
  | .allow _ _ => true
  | .deny _ _ => false

-- ═══════════════════════════════════════════════════════════════════════════
-- CLAIM C1
-- ═══════════════════════════════════════════════════════════════════════════

/-- Claim C1: For every verified identity `(userId, email, role)`, the internal
token minted by `createInternalJWT` carries exactly the claims
`sub = userId`, `email`, `roles = [role]`, `aud = "vps-metrics-api"`,
`iss = "supabase-metrics-proxy"`, with `exp − iat` equal to the fixed TTL of
60 seconds exactly, and is signed with HMAC-SHA256 over the configured shared
secret.  (Minting requires a non-empty secret; with it the token is fully
determined.) -/
theorem C1_internal_token_claims (userId email role secret : String)
    (now : Nat) (hsecret : secret ≠ "") :
    createInternalJWT userId email role secret now =
      .ok { sub := userId
            email := email
            roles := [role]
            aud := "vps-metrics-api"
            iss := "supabase-metrics-proxy"
            iat := now
            exp := now + INTERNAL_JWT_TTL_SECONDS
            alg := "HS256"
            key := secret } ∧
    ∀ tok : InternalJWT,
      createInternalJWT userId email role secret now = .ok tok →
        tok.exp - tok.iat = 60 ∧
        tok.aud = INTERNAL_JWT_AUDIENCE ∧
        tok.iss = INTERNAL_JWT_ISSUER ∧
        tok.alg = "HS256" ∧
        tok.key = secret := by
  constructor
  · simp [createInternalJWT, hsecret, INTERNAL_JWT_AUDIENCE,
      INTERNAL_JWT_ISSUER]
  · intro tok htok
    simp only [createInternalJWT, hsecret, if_neg, ite_false] at htok
    cases htok
    simp [INTERNAL_JWT_TTL_SECONDS, INTERNAL_JWT_AUDIENCE, INTERNAL_JWT_ISSUER]

/-- Witness for C1 at a concrete identity. -/
theorem C1_internal_token_claims_witness :
    ("supersecret" : String) ≠ "" ∧
    (createInternalJWT "user-1" "a@b.c" "authenticated" "supersecret" 1000 =
      .ok { sub := "user-1"
            email := "a@b.c"
            roles := ["authenticated"]
            aud := "vps-metrics-api"
            iss := "supabase-metrics-proxy"
            iat := 1000
            exp := 1000 + INTERNAL_JWT_TTL_SECONDS
            alg := "HS256"
            key := "supersecret" } ∧
    ∀ tok : InternalJWT,
      createInternalJWT "user-1" "a@b.c" "authenticated" "supersecret" 1000 =
          .ok tok →
        tok.exp - tok.iat = 60 ∧
        tok.aud = INTERNAL_JWT_AUDIENCE ∧
        tok.iss = INTERNAL_JWT_ISSUER ∧
        tok.alg = "HS256" ∧
        tok.key = "supersecret") :=
  ⟨by decide,
   C1_internal_token_claims "user-1" "a@b.c" "authenticated" "supersecret"
     1000 (by decide)⟩

-- ═══════════════════════════════════════════════════════════════════════════
-- CLAIM C2
-- ═══════════════════════════════════════════════════════════════════════════

/-- Claim C2: The Internal Gatekeeper's decision function: a token whose
audience differs from `"vps-metrics-api"` (all other checks passing) is denied
with HTTP 401 and the distinct reason `"Invalid audience"`; signature
mismatch, expiry and wrong issuer each produce their own distinct 401 reason;
on any denial nginx forwards nothing to the metrics service; and it answers
200 with the `X-Auth-User-Id`/`X-Auth-User-Email` attribution values taken
from the token exactly when the token is fully valid. -/
theorem C2_gatekeeper_decision (tok : InternalJWT) (secret : String)
    (now : Nat) :
    (tok.key = secret → now < tok.exp → tok.iss = EXPECTED_ISSUER →
      tok.aud ≠ EXPECTED_AUDIENCE →
      validate_jwt (.bearer tok) secret now = .deny 401 "Invalid audience" ∧
      nginxForwards (validate_jwt (.bearer tok) secret now) = false) ∧
    (tok.key ≠ secret →
      validate_jwt (.bearer tok) secret now =
        .deny 401 "Invalid token: Signature verification failed") ∧
    (tok.key = secret → tok.exp ≤ now →
      validate_jwt (.bearer tok) secret now = .deny 401 "Token expired") ∧
    (tok.key = secret → now < tok.exp → tok.iss ≠ EXPECTED_ISSUER →
      validate_jwt (.bearer tok) secret now = .deny 401 "Invalid issuer") ∧
    (tok.key = secret → now < tok.exp → tok.iss = EXPECTED_ISSUER →
      tok.aud = EXPECTED_AUDIENCE →
      validate_jwt (.bearer tok) secret now = .allow tok.sub tok.email) ∧
    (∀ h : AuthHeader, ∀ s r,
      validate_jwt h secret now = .deny s r →
      nginxForwards (validate_jwt h secret now) = false) ∧
    (∀ h : AuthHeader, ∀ u e,
      validate_jwt h secret now = .allow u e →
      ∃ t : InternalJWT, h = .bearer t ∧ t.key = secret ∧ now < t.exp ∧
        t.iss = EXPECTED_ISSUER ∧ t.aud = EXPECTED_AUDIENCE ∧
        u = t.sub ∧ e = t.email) := by
  refine ⟨?_, ?_, ?_, ?_, ?_, ?_, ?_⟩
  · intro hk hexp hiss haud
    have hne : ¬ tok.exp ≤ now := by omega
    constructor
    · simp [validate_jwt, hk, hne, hiss, haud]
    · simp [validate_jwt, hk, hne, hiss, haud, nginxForwards]
  · intro hk
    simp [validate_jwt, hk]
  · intro hk hexp
    simp [validate_jwt, hk, hexp]
  · intro hk hexp hiss
    have hne : ¬ tok.exp ≤ now := by omega
    simp [validate_jwt, hk, hne, hiss]
  · intro hk hexp hiss haud
    have hne : ¬ tok.exp ≤ now := by omega
    simp [validate_jwt, hk, hne, hiss, haud]
  · intro h s r hdeny
    rw [hdeny]
    rfl
  · intro h u e hallow
    match h with
    | .missing => simp [validate_jwt] at hallow
    | .nonBearer raw => simp [validate_jwt] at hallow
    | .bearer t =>
      refine ⟨t, rfl, ?_⟩
      by_cases hk : t.key = secret
      · by_cases hexp : t.exp ≤ now
        · simp [validate_jwt, hk, hexp] at hallow
        · by_cases hiss : t.iss = EXPECTED_ISSUER
          · by_cases haud : t.aud = EXPECTED_AUDIENCE
            · simp [validate_jwt, hk, hexp, hiss, haud] at hallow
              exact ⟨hk, by omega, hiss, haud, hallow.1.symm, hallow.2.symm⟩
            · simp [validate_jwt, hk, hexp, hiss, haud] at hallow
          · simp [validate_jwt, hk, hexp, hiss] at hallow
      · simp [validate_jwt, hk] at hallow

/-- Witness for C2 at a concrete wrong-audience token. -/
theorem C2_gatekeeper_decision_witness :
    let tok : InternalJWT :=
      { sub := "user-1", email := "a@b.c", roles := ["authenticated"],
        aud := "some-other-api", iss := "supabase-metrics-proxy",
        iat := 1000, exp := 1060, alg := "HS256", key := "sharedkey" }
    tok.key = "sharedkey" ∧ 1005 < tok.exp ∧
      tok.iss = EXPECTED_ISSUER ∧ tok.aud ≠ EXPECTED_AUDIENCE ∧
      (validate_jwt (.bearer tok) "sharedkey" 1005 =
        .deny 401 "Invalid audience" ∧
       nginxForwards (validate_jwt (.bearer tok) "sharedkey" 1005) = false) :=
  ⟨by decide, by decide, by decide, by decide,
   (C2_gatekeeper_decision _ "sharedkey" 1005).1 (by decide) (by decide)
     (by decide) (by decide)⟩

-- ═══════════════════════════════════════════════════════════════════════════
-- ENDPOINT HEALTH MONITOR (module-level `healthState` map of index.ts)
-- ═══════════════════════════════════════════════════════════════════════════

/-- One per-endpoint entry of the in-memory `healthState` map.
`avgLatencyMs` is the JS number produced by `reduce(...)/length`. -/
structure EndpointHealthEntry where
  endpoint : String
  lastSuccess : Option String
  lastFailure : Option String
  successCount : Nat
  failureCount : Nat
  avgLatencyMs : ℚ
  latencies : List Nat
deriving DecidableEq, Repr

/-- The `healthState` map: a JS `Map`, i.e. an insertion-ordered
association list with unique keys. -/
abbrev HealthState := List (String × EndpointHealthEntry)

/-- `initEndpointHealth(endpoint)` from index.ts. -/
def initEndpointHealth (endpoint : String) : EndpointHealthEntry :=
  { endpoint := endpoint
    lastSuccess := none
    lastFailure := none
    successCount := 0
    failureCount := 0
    avgLatencyMs := 0
    latencies := [] }

/-- `healthState.get(endpoint)`. -/
def getEntry : HealthState → String → Option EndpointHealthEntry
  | [], _ => none
  | (k, v) :: rest, ep => if k = ep then some v else getEntry rest ep

/-- `healthState.set(endpoint, entry)`: replace in place, else append
(JS `Map` keeps the original insertion position on overwrite). -/
def setEntry : HealthState → String → EndpointHealthEntry → HealthState
  | [], ep, e => [(ep, e)]
  | (k, v) :: rest, ep, e =>
    if k = ep then (ep, e) :: rest else (k, v) :: setEntry rest ep e

/-- The mutation `recordEndpointResult` applies to one entry: bump the
matching counter and timestamp, push the latency, evict the oldest sample
when the window exceeds `HEALTH_WINDOW_SIZE`, recompute the average from the
current window contents. -/
def recordEntryUpdate (e : EndpointHealthEntry) (success : Bool)
    (latencyMs : Nat) (now : String) : EndpointHealthEntry :=
  let e1 :=
    if success then
      { e with lastSuccess := some now, successCount := e.successCount + 1 }
    else
      { e with lastFailure := some now, failureCount := e.failureCount + 1 }
  let pushed := e1.latencies ++ [latencyMs]
  let win := if HEALTH_WINDOW_SIZE < pushed.length then pushed.tail else pushed
  { e1 with latencies := win
            avgLatencyMs := (win.sum : ℚ) / (win.length : ℚ) }

/-- `recordEndpointResult(endpoint, success, latencyMs)` from index.ts
(`now` is the `new Date().toISOString()` value). -/
def recordEndpointResult (st : HealthState) (endpoint : String)
    (success : Bool) (latencyMs : Nat) (now : String) : HealthState :=
  setEntry st endpoint
    (recordEntryUpdate ((getEntry st endpoint).getD (initEndpointHealth endpoint))
      success latencyMs now)

/-- Success rate of an entry as computed in `getHealthSnapshot`:
`total > 0 ? successCount / total : 0`. -/
def entryRate (e : EndpointHealthEntry) : ℚ :=
  if 0 < e.successCount + e.failureCount then
    (e.successCount : ℚ) / ((e.successCount + e.failureCount : Nat) : ℚ)
  else 0

/-- Status derivation of `getHealthSnapshot`:
`successRate >= 0.9 ? "healthy" : successRate >= 0.5 ? "degraded" : "down"`. -/
def statusOf (successRate : ℚ) : String :=
  if (0.9 : ℚ) ≤ successRate then "healthy"
  else if (0.5 : ℚ) ≤ successRate then "degraded"
  else "down"

/-- Status string of an entry at snapshot time. -/
def entryStatus (e : EndpointHealthEntry) : String := statusOf (entryRate e)

/-- Per-endpoint record of the snapshot's `endpoints` object
(`successRate` is `Math.round(successRate * 100)`). -/
structure EndpointStatus where
  status : String
  lastSuccess : Option String
  lastFailure : Option String
  successRate : ℤ
  avgLatencyMs : ℤ
deriving DecidableEq, Repr

/-- Builds one snapshot `endpoints[ep]` record from a health entry. -/
def mkEndpointStatus (e : EndpointHealthEntry) : EndpointStatus :=
  { status := entryStatus e
    lastSuccess := e.lastSuccess
    lastFailure := e.lastFailure
    successRate := round (entryRate e * 100)
    avgLatencyMs := round e.avgLatencyMs }

/-- `HealthSnapshot` of index.ts. -/
structure HealthSnapshot where
  vpsReachable : Bool
  totalEndpoints : Nat
  healthyEndpoints : Nat
  degradedEndpoints : Nat
  avgOverallLatencyMs : ℤ
  endpoints : List (String × EndpointStatus)
  lastChecked : String
deriving DecidableEq, Repr

/-- `getHealthSnapshot()` from index.ts; the loop over `healthState` is
expressed by `map`/`filter`/`sum` over the entries in map order. -/
def getHealthSnapshot (st : HealthState) (now : String) : HealthSnapshot :=
  let healthy := st.filter (fun p => entryStatus p.2 == "healthy")
  let degraded := st.filter (fun p => entryStatus p.2 == "degraded")
  let totalLatency : ℚ := (st.map (fun p => p.2.avgLatencyMs)).sum
  { vpsReachable := decide (0 < healthy.length)
    totalEndpoints := st.length
    healthyEndpoints := healthy.length
    degradedEndpoints := degraded.length
    avgOverallLatencyMs :=
      if 0 < st.length then round (totalLatency / (st.length : ℚ)) else 0
    endpoints := st.map (fun p => (p.1, mkEndpointStatus p.2))
    lastChecked := now }

-- ═══════════════════════════════════════════════════════════════════════════
-- Health monitor lemmas
-- ═══════════════════════════════════════════════════════════════════════════

/-- One observation of a single endpoint (argument triple of
`recordEndpointResult` minus the endpoint). -/
structure Obs where
  success : Bool
  latencyMs : Nat
  now : String
deriving DecidableEq, Repr

/-- Replay a sequence of observations of one endpoint. -/
def applyObs (st : HealthState) (ep : String) (obs : List Obs) : HealthState :=
  obs.foldl (fun s o => recordEndpointResult s ep o.success o.latencyMs o.now) st

/-- The entry-level fold corresponding to `applyObs` on a one-entry map. -/
def entryFold (e : EndpointHealthEntry) (obs : List Obs) : EndpointHealthEntry :=
  obs.foldl (fun e o => recordEntryUpdate e o.success o.latencyMs o.now) e

theorem record_singleton (ep : String) (e : EndpointHealthEntry)
    (s : Bool) (l : Nat) (n : String) :
    recordEndpointResult [(ep, e)] ep s l n = [(ep, recordEntryUpdate e s l n)] := by
  simp [recordEndpointResult, getEntry, setEntry]

theorem record_nil (ep : String) (s : Bool) (l : Nat) (n : String) :
    recordEndpointResult [] ep s l n =
      [(ep, recordEntryUpdate (initEndpointHealth ep) s l n)] := by
  simp [recordEndpointResult, getEntry, setEntry]

theorem applyObs_singleton (ep : String) :
    ∀ (obs : List Obs) (e : EndpointHealthEntry),
      applyObs [(ep, e)] ep obs = [(ep, entryFold e obs)]
  | [], e => rfl
  | o :: rest, e => by
    have h1 : applyObs [(ep, e)] ep (o :: rest) =
        applyObs (recordEndpointResult [(ep, e)] ep o.success o.latencyMs o.now)
          ep rest := rfl
    rw [h1, record_singleton, applyObs_singleton ep rest]
    rfl

theorem applyObs_nil (ep : String) (obs : List Obs) (h : obs ≠ []) :
    applyObs [] ep obs = [(ep, entryFold (initEndpointHealth ep) obs)] := by
  match obs with
  | [] => exact absurd rfl h
  | o :: rest =>
    have h1 : applyObs [] ep (o :: rest) =
        applyObs (recordEndpointResult [] ep o.success o.latencyMs o.now)
          ep rest := rfl
    rw [h1, record_nil, applyObs_singleton ep rest]
    rfl

/-- Keep only the most recent `HEALTH_WINDOW_SIZE` samples. -/
def windowDrop (l : List Nat) : List Nat :=
  l.drop (l.length - HEALTH_WINDOW_SIZE)

theorem windowDrop_length_le (l : List Nat) :
    (windowDrop l).length ≤ HEALTH_WINDOW_SIZE := by
  simp only [windowDrop, List.length_drop]
  omega

theorem windowDrop_of_le (l : List Nat) (h : l.length ≤ HEALTH_WINDOW_SIZE) :
    windowDrop l = l := by
  simp only [windowDrop]
  rw [Nat.sub_eq_zero_of_le h, List.drop_zero]

theorem windowDrop_append (a b : List Nat) :
    windowDrop (windowDrop a ++ b) = windowDrop (a ++ b) := by
  rcases le_or_lt a.length HEALTH_WINDOW_SIZE with hle | hlt
  · rw [windowDrop_of_le a hle]
  · have hlen : (windowDrop a).length = HEALTH_WINDOW_SIZE := by
      simp only [windowDrop, List.length_drop]
      omega
    have hd : a.length - HEALTH_WINDOW_SIZE ≤ a.length := Nat.sub_le _ _
    calc windowDrop (windowDrop a ++ b)
        = (windowDrop a ++ b).drop
            ((windowDrop a).length + b.length - HEALTH_WINDOW_SIZE) := by
          rw [windowDrop, List.length_append]
      _ = (windowDrop a ++ b).drop b.length := by rw [hlen]; congr 1; omega
      _ = ((a ++ b).drop (a.length - HEALTH_WINDOW_SIZE)).drop b.length := by
          rw [windowDrop, List.drop_append_of_le_length hd]
      _ = (a ++ b).drop ((a.length - HEALTH_WINDOW_SIZE) + b.length) := by
          rw [List.drop_drop]
      _ = windowDrop (a ++ b) := by
          rw [windowDrop, List.length_append]; congr 1; omega

theorem recordEntryUpdate_latencies (e : EndpointHealthEntry) (s : Bool)
    (l : Nat) (n : String) (h : e.latencies.length ≤ HEALTH_WINDOW_SIZE) :
    (recordEntryUpdate e s l n).latencies = windowDrop (e.latencies ++ [l]) := by
  have hlats : ∀ b : Bool,
      ((if b then
          { e with lastSuccess := some n, successCount := e.successCount + 1 }
        else
          { e with lastFailure := some n, failureCount := e.failureCount + 1 }) :
        EndpointHealthEntry).latencies = e.latencies := by
    intro b; cases b <;> rfl
  simp only [recordEntryUpdate, hlats]
  have hlen0 : (e.latencies ++ [l]).length = e.latencies.length + 1 := by
    simp
  rcases le_or_lt (e.latencies ++ [l]).length HEALTH_WINDOW_SIZE with hle | hlt
  · rw [if_neg (by omega), windowDrop_of_le _ hle]
  · have hlen : (e.latencies ++ [l]).length = HEALTH_WINDOW_SIZE + 1 := by
      omega
    rw [if_pos hlt, windowDrop, hlen]
    simp only [Nat.add_sub_cancel_left]
    rw [List.drop_one]

theorem entryFold_latencies :
    ∀ (obs : List Obs) (e : EndpointHealthEntry),
      e.latencies.length ≤ HEALTH_WINDOW_SIZE →
      (entryFold e obs).latencies =
        windowDrop (e.latencies ++ obs.map Obs.latencyMs)
  | [], e, h => by
    simp only [entryFold, List.foldl_nil, List.map_nil, List.append_nil]
    exact (windowDrop_of_le _ h).symm
  | o :: rest, e, h => by
    have hupd := recordEntryUpdate_latencies e o.success o.latencyMs o.now h
    have hlen1 : (recordEntryUpdate e o.success o.latencyMs o.now).latencies.length
        ≤ HEALTH_WINDOW_SIZE := by
      rw [hupd]; exact windowDrop_length_le _
    have ih := entryFold_latencies rest
      (recordEntryUpdate e o.success o.latencyMs o.now) hlen1
    have hstep : entryFold e (o :: rest) =
        entryFold (recordEntryUpdate e o.success o.latencyMs o.now) rest := rfl
    rw [hstep, ih, hupd, windowDrop_append]
    simp only [List.map_cons, List.append_assoc, List.singleton_append]

theorem recordEntryUpdate_successCount (e : EndpointHealthEntry) (s : Bool)
    (l : Nat) (n : String) :
    (recordEntryUpdate e s l n).successCount =
      e.successCount + (if s then 1 else 0) := by
  cases s <;> rfl

theorem recordEntryUpdate_failureCount (e : EndpointHealthEntry) (s : Bool)
    (l : Nat) (n : String) :
    (recordEntryUpdate e s l n).failureCount =
      e.failureCount + (if s then 0 else 1) := by
  cases s <;> rfl

theorem entryFold_successCount :
    ∀ (obs : List Obs) (e : EndpointHealthEntry),
      (entryFold e obs).successCount =
        e.successCount + (obs.filter Obs.success).length
  | [], e => by simp [entryFold]
  | o :: rest, e => by
    have ih := entryFold_successCount rest
      (recordEntryUpdate e o.success o.latencyMs o.now)
    have hstep : entryFold e (o :: rest) =
        entryFold (recordEntryUpdate e o.success o.latencyMs o.now) rest := rfl
    rw [hstep, ih, recordEntryUpdate_successCount]
    cases hs : o.success <;> (simp [List.filter_cons, hs]; try omega)

theorem entryFold_failureCount :
    ∀ (obs : List Obs) (e : EndpointHealthEntry),
      (entryFold e obs).failureCount =
        e.failureCount + (obs.filter (fun o => !o.success)).length
  | [], e => by simp [entryFold]
  | o :: rest, e => by
    have ih := entryFold_failureCount rest
      (recordEntryUpdate e o.success o.latencyMs o.now)
    have hstep : entryFold e (o :: rest) =
        entryFold (recordEntryUpdate e o.success o.latencyMs o.now) rest := rfl
    rw [hstep, ih, recordEntryUpdate_failureCount]
    cases hs : o.success <;> (simp [List.filter_cons, hs]; try omega)

theorem entryFold_avg :
    ∀ (obs : List Obs) (e : EndpointHealthEntry), obs ≠ [] →
      (entryFold e obs).avgLatencyMs =
        ((entryFold e obs).latencies.sum : ℚ) /
          ((entryFold e obs).latencies.length : ℚ)
  | [], _, h => absurd rfl h
  | o :: rest, e, _ => by
    match rest with
    | [] => rfl
    | r :: rs =>
      exact entryFold_avg (r :: rs)
        (recordEntryUpdate e o.success o.latencyMs o.now) (by simp)

theorem length_filter_success_add_not (l : List Obs) :
    (l.filter Obs.success).length +
      (l.filter (fun o => !o.success)).length = l.length := by
  induction l with
  | nil => rfl
  | cons a t ih =>
    cases ha : a.success <;> simp [List.filter_cons, ha] <;> omega

-- ═══════════════════════════════════════════════════════════════════════════
-- CLAIM C3
-- ═══════════════════════════════════════════════════════════════════════════

/-- Claim C3: For any sequence of more than `HEALTH_WINDOW_SIZE = 20` recorded
observations on one endpoint (starting from the process-start empty health
map), the entry's latency window holds exactly the 20 most recent latencies
in order (oldest evicted first), its average latency is the arithmetic mean
of the window contents, and the snapshot reports a success rate computed from
`successCount/(successCount+failureCount)` over the entire observation
history, not merely the window. -/
theorem C3_window_fifo_and_full_history_rate (ep : String) (obs : List Obs)
    (now : String) (h : HEALTH_WINDOW_SIZE < obs.length) :
    ∃ E : EndpointHealthEntry,
      applyObs [] ep obs = [(ep, E)] ∧
      E.latencies =
        (obs.map Obs.latencyMs).drop (obs.length - HEALTH_WINDOW_SIZE) ∧
      E.latencies.length = HEALTH_WINDOW_SIZE ∧
      E.avgLatencyMs = (E.latencies.sum : ℚ) / (HEALTH_WINDOW_SIZE : ℚ) ∧
      E.successCount = (obs.filter Obs.success).length ∧
      E.failureCount = (obs.filter (fun o => !o.success)).length ∧
      E.successCount + E.failureCount = obs.length ∧
      (getHealthSnapshot (applyObs [] ep obs) now).endpoints =
        [(ep, mkEndpointStatus E)] ∧
      (mkEndpointStatus E).successRate =
        round ((E.successCount : ℚ) / (obs.length : ℚ) * 100) := by
  have hne : obs ≠ [] := by
    intro hc; rw [hc] at h; simp at h
  have happ := applyObs_nil ep obs hne
  set E := entryFold (initEndpointHealth ep) obs with hE
  have hinit_lat : (initEndpointHealth ep).latencies = [] := rfl
  have hlat : E.latencies =
      (obs.map Obs.latencyMs).drop (obs.length - HEALTH_WINDOW_SIZE) := by
    rw [hE, entryFold_latencies obs (initEndpointHealth ep)
      (by rw [hinit_lat]; simp [HEALTH_WINDOW_SIZE])]
    rw [hinit_lat, List.nil_append, windowDrop, List.length_map]
  have hlen : E.latencies.length = HEALTH_WINDOW_SIZE := by
    rw [hlat, List.length_drop, List.length_map]; omega
  have hsc : E.successCount = (obs.filter Obs.success).length := by
    rw [hE, entryFold_successCount]; simp [initEndpointHealth]
  have hfc : E.failureCount = (obs.filter (fun o => !o.success)).length := by
    rw [hE, entryFold_failureCount]; simp [initEndpointHealth]
  have htot : E.successCount + E.failureCount = obs.length := by
    rw [hsc, hfc]; exact length_filter_success_add_not obs
  have havg : E.avgLatencyMs = (E.latencies.sum : ℚ) / (HEALTH_WINDOW_SIZE : ℚ) := by
    rw [hE, entryFold_avg obs (initEndpointHealth ep) hne, ← hE, hlen]
  have hrate : entryRate E = (E.successCount : ℚ) / (obs.length : ℚ) := by
    rw [entryRate, if_pos (by omega : 0 < E.successCount + E.failureCount), htot]
  refine ⟨E, happ, hlat, hlen, havg, hsc, hfc, htot, ?_, ?_⟩
  · rw [happ]; simp [getHealthSnapshot]
  · rw [mkEndpointStatus, hrate]

/-- Witness for C3 with 21 successful observations of latency 7. -/
theorem C3_window_fifo_and_full_history_rate_witness :
    HEALTH_WINDOW_SIZE < (List.replicate 21 (Obs.mk true 7 "t")).length ∧
    (∃ E : EndpointHealthEntry,
      applyObs [] "/brokers/status" (List.replicate 21 (Obs.mk true 7 "t")) =
        [("/brokers/status", E)] ∧
      E.latencies =
        ((List.replicate 21 (Obs.mk true 7 "t")).map Obs.latencyMs).drop
          ((List.replicate 21 (Obs.mk true 7 "t")).length - HEALTH_WINDOW_SIZE) ∧
      E.latencies.length = HEALTH_WINDOW_SIZE ∧
      E.avgLatencyMs = (E.latencies.sum : ℚ) / (HEALTH_WINDOW_SIZE : ℚ) ∧
      E.successCount =
        ((List.replicate 21 (Obs.mk true 7 "t")).filter Obs.success).length ∧
      E.failureCount =
        ((List.replicate 21 (Obs.mk true 7 "t")).filter
          (fun o => !o.success)).length ∧
      E.successCount + E.failureCount =
        (List.replicate 21 (Obs.mk true 7 "t")).length ∧
      (getHealthSnapshot
          (applyObs [] "/brokers/status" (List.replicate 21 (Obs.mk true 7 "t")))
          "t2").endpoints = [("/brokers/status", mkEndpointStatus E)] ∧
      (mkEndpointStatus E).successRate =
        round ((E.successCount : ℚ) /
          (((List.replicate 21 (Obs.mk true 7 "t")).length : Nat) : ℚ) * 100)) :=
  ⟨by decide,
   C3_window_fifo_and_full_history_rate "/brokers/status"
     (List.replicate 21 (Obs.mk true 7 "t")) "t2" (by decide)⟩

-- ═══════════════════════════════════════════════════════════════════════════
-- CLAIM C6
-- ═══════════════════════════════════════════════════════════════════════════

/-- One call to `recordEndpointResult` (any endpoint). -/
structure RecordOp where
  endpoint : String
  success : Bool
  latencyMs : Nat
  now : String
deriving DecidableEq, Repr

/-- Reachable health-map states: replay any sequence of
`recordEndpointResult` calls against the empty map (its startup state);
entries are created only by recording an observation. -/
def applyOps (ops : List RecordOp) : HealthState :=
  ops.foldl
    (fun st o => recordEndpointResult st o.endpoint o.success o.latencyMs o.now)
    []

theorem mem_setEntry :
    ∀ (st : HealthState) (k : String) (v : EndpointHealthEntry)
      (p : String × EndpointHealthEntry),
      p ∈ setEntry st k v → p = (k, v) ∨ p ∈ st
  | [], k, v, p, hp => by
    simp only [setEntry, List.mem_singleton] at hp
    exact Or.inl hp
  | (k', v') :: rest, k, v, p, hp => by
    by_cases hk : k' = k
    · simp only [setEntry, if_pos hk, List.mem_cons] at hp
      rcases hp with h | h
      · exact Or.inl h
      · exact Or.inr (List.mem_cons_of_mem _ h)
    · simp only [setEntry, if_neg hk, List.mem_cons] at hp
      rcases hp with h | h
      · exact Or.inr (by rw [h]; exact List.mem_cons_self _ _)
      · rcases mem_setEntry rest k v p h with h2 | h2
        · exact Or.inl h2
        · exact Or.inr (List.mem_cons_of_mem _ h2)

theorem recordEntryUpdate_total (e : EndpointHealthEntry) (s : Bool)
    (l : Nat) (n : String) :
    (recordEntryUpdate e s l n).successCount +
        (recordEntryUpdate e s l n).failureCount =
      e.successCount + e.failureCount + 1 := by
  rw [recordEntryUpdate_successCount, recordEntryUpdate_failureCount]
  cases s <;> simp <;> omega

theorem applyOps_total_pos :
    ∀ (ops : List RecordOp) (st : HealthState),
      (∀ p ∈ st, 1 ≤ p.2.successCount + p.2.failureCount) →
      ∀ p ∈ ops.foldl
          (fun st o =>
            recordEndpointResult st o.endpoint o.success o.latencyMs o.now) st,
        1 ≤ p.2.successCount + p.2.failureCount
  | [], _, hst => hst
  | o :: rest, st, hst => by
    refine applyOps_total_pos rest _ ?_
    intro p hp
    simp only [recordEndpointResult] at hp
    rcases mem_setEntry _ _ _ p hp with h | h
    · rw [h]
      have := recordEntryUpdate_total
        ((getEntry st o.endpoint).getD (initEndpointHealth o.endpoint))
        o.success o.latencyMs o.now
      simp only []
      omega
    · exact hst p h

/-- Status formula exactly as worded in the claim: healthy when the success
rate is at least 0.9, degraded when at least 0.5 and below 0.9, down
otherwise, with `successRate = successCount/(successCount+failureCount)`. -/
def claimStatus (successCount failureCount : Nat) : String :=
  let rate : ℚ := (successCount : ℚ) / ((successCount + failureCount : Nat) : ℚ)
  if (9 : ℚ) / 10 ≤ rate then "healthy"
  else if (1 : ℚ) / 2 ≤ rate then "degraded"
  else "down"

theorem entryStatus_eq_claimStatus (e : EndpointHealthEntry)
    (h : 1 ≤ e.successCount + e.failureCount) :
    entryStatus e = claimStatus e.successCount e.failureCount := by
  have h9 : (0.9 : ℚ) = 9 / 10 := by norm_num
  have h5 : (0.5 : ℚ) = 1 / 2 := by norm_num
  rw [entryStatus, statusOf, entryRate,
    if_pos (by omega : 0 < e.successCount + e.failureCount), claimStatus,
    h9, h5]

/-- Claim C6: In every reachable state of the health map (entries are created
only by recording an observation), every entry has at least one observation;
the snapshot reports exactly the map's endpoints — so an endpoint with zero
observations is never reported — and each reported endpoint's status equals
healthy/degraded/down by the 0.9/0.5 thresholds on
`successCount/(successCount+failureCount)`. -/
theorem C6_snapshot_status_invariant (ops : List RecordOp) (now : String) :
    (∀ p ∈ applyOps ops, 1 ≤ p.2.successCount + p.2.failureCount) ∧
    (getHealthSnapshot (applyOps ops) now).endpoints =
      (applyOps ops).map (fun p => (p.1, mkEndpointStatus p.2)) ∧
    (∀ q ∈ (getHealthSnapshot (applyOps ops) now).endpoints,
      ∃ e : EndpointHealthEntry, (q.1, e) ∈ applyOps ops ∧
        1 ≤ e.successCount + e.failureCount ∧
        q.2 = mkEndpointStatus e ∧
        q.2.status = claimStatus e.successCount e.failureCount) := by
  have hinv := applyOps_total_pos ops [] (by intro p hp; simp at hp)
  refine ⟨hinv, rfl, ?_⟩
  intro q hq
  have hq2 : q ∈ (applyOps ops).map (fun p => (p.1, mkEndpointStatus p.2)) := hq
  obtain ⟨p, hp, hpq⟩ := List.mem_map.mp hq2
  refine ⟨p.2, ?_, hinv p hp, ?_, ?_⟩
  · have : (q.1, p.2) = p := by rw [← hpq]
    rw [this]; exact hp
  · rw [← hpq]
  · rw [← hpq]
    exact entryStatus_eq_claimStatus p.2 (hinv p hp)

/-- Witness for C6 at a concrete reachable state (one success, one failure
on two endpoints). -/
theorem C6_snapshot_status_invariant_witness :
    (∀ p ∈ applyOps
        [RecordOp.mk "/brokers/status" true 5 "t1",
         RecordOp.mk "/trades/live" false 9 "t2"],
      1 ≤ p.2.successCount + p.2.failureCount) ∧
    (getHealthSnapshot (applyOps
        [RecordOp.mk "/brokers/status" true 5 "t1",
         RecordOp.mk "/trades/live" false 9 "t2"]) "t3").endpoints =
      (applyOps
        [RecordOp.mk "/brokers/status" true 5 "t1",
         RecordOp.mk "/trades/live" false 9 "t2"]).map
        (fun p => (p.1, mkEndpointStatus p.2)) ∧
    (∀ q ∈ (getHealthSnapshot (applyOps
        [RecordOp.mk "/brokers/status" true 5 "t1",
         RecordOp.mk "/trades/live" false 9 "t2"]) "t3").endpoints,
      ∃ e : EndpointHealthEntry,
        (q.1, e) ∈ applyOps
          [RecordOp.mk "/brokers/status" true 5 "t1",
           RecordOp.mk "/trades/live" false 9 "t2"] ∧
        1 ≤ e.successCount + e.failureCount ∧
        q.2 = mkEndpointStatus e ∧
        q.2.status = claimStatus e.successCount e.failureCount) :=
  C6_snapshot_status_invariant
    [RecordOp.mk "/brokers/status" true 5 "t1",
     RecordOp.mk "/trades/live" false 9 "t2"] "t3"

-- ═══════════════════════════════════════════════════════════════════════════
-- CREDENTIAL VERIFIER RESULT / UPSTREAM FETCH MODEL
-- ═══════════════════════════════════════════════════════════════════════════

/-- `AuthResult` of index.ts (output of `verifySupabaseJWT`; the identity
provider interaction itself is external, so route handlers take this result
as input). -/
structure AuthResult where
  valid : Bool
  userId : Option String
  email : Option String
  role : Option String
  error : Option String
deriving DecidableEq, Repr

/-- `EndpointResult` of index.ts. -/
structure EndpointResult where
  endpoint : String
  data : Option Json
  success : Bool
  status : Option Nat
  error : Option String
  latencyMs : Nat

/-- Behaviour of one upstream `fetch`: a response with `res.ok` true and a
JSON body, a response with `res.ok` false, or a thrown network error. -/
inductive FetchOutcome where
  | ok (status : Nat) (data : Json)
  | httpError (status : Nat)
  | networkError (msg : String)

/-- A fan-out call that did not produce an `ok` response. -/
def FetchOutcome.failed : FetchOutcome → Bool
  | .ok _ _ => false
  | .httpError _ => true
  | .networkError _ => true

/-- The per-endpoint fetch closure of `fetchAndAggregateMetrics` (result
construction; the `recordEndpointResult` side effect is applied below, once
per call, exactly as each branch of the source does). -/
def runFetch (endpoint : String) (o : FetchOutcome) (latencyMs : Nat) :
    EndpointResult :=
  match o with
  | .ok s d =>
    { endpoint := endpoint, data := some d, success := true,
      status := some s, error := none, latencyMs := latencyMs }
  | .httpError s =>
    { endpoint := endpoint, data := none, success := false,
      status := some s, error := none, latencyMs := latencyMs }
  | .networkError m =>
    { endpoint := endpoint, data := none, success := false,
      status := none, error := some m, latencyMs := latencyMs }

/-- Ambient inputs of one aggregation call: upstream behaviour per endpoint,
measured latencies, and the clock readings taken during the call. -/
structure UpstreamEnv where
  outcome : String → FetchOutcome
  latency : String → Nat
  clockSec : Nat
  nowIso : String
  serverTimeIso : String
  totalLatencyMs : Nat

/-- `results.find(r => r.endpoint === ep)?.data || {}`. -/
def sectionData (results : List EndpointResult) (ep : String) : Json :=
  match results.find? (fun r => r.endpoint == ep) with
  | some r => jsOr r.data (.obj [])
  | none => .obj []

/-- JavaScript `x === true` on a possibly-undefined JSON value. -/
def isJsTrue : Option Json → Bool
  | some (.bool true) => true
  | _ => false

/-- `proving.strategies?.filter(s => s.state === tag)?.length || 0`.
Optional chaining only guards nullish values: an absent or `null`
`strategies` yields 0; an array is filtered, but a `null` element makes the
callback's `s.state` access throw a TypeError; any other value has no
`filter` method, so the call throws a TypeError that escapes the merge. -/
def countStrategiesWithState (proving : Json) (tag : String) :
    Except String Nat :=
  match proving.get "strategies" with
  | none => .ok 0
  | some .null => .ok 0
  | some (.arr xs) =>
    if xs.any Json.isNull then
      .error "TypeError: Cannot read properties of null (reading state)"
    else
      .ok ((xs.filter (fun s =>
        match s.get "state" with
        | some (.str t) => t == tag
        | _ => false)).length)
  | some _ => .error "TypeError: proving.strategies.filter is not a function"

/-- `proving.strategies?.length || 0`: nullish yields 0, an array its
length, a string its character count (strings expose `length`), anything
else has no `length` property, hence 0.  Never throws. -/
def strategiesLen (proving : Json) : Nat :=
  match proving.get "strategies" with
  | some (.arr xs) => xs.length
  | some (.str s) => s.length
  | _ => 0

/-- `promotions.history?.slice(0, 5) || []`: nullish yields `[]`; an array
is sliced; a string is sliced as a string (an empty result is falsy and
falls back to `[]`); any other value has no `slice` method, so the call
throws a TypeError. -/
def historySlice (promotions : Json) : Except String Json :=
  match promotions.get "history" with
  | none => .ok (.arr [])
  | some .null => .ok (.arr [])
  | some (.arr xs) => .ok (.arr (xs.take 5))
  | some (.str s) => .ok (jsOr (some (.str ⟨s.data.take 5⟩)) (.arr []))
  | some _ => .error "TypeError: promotions.history.slice is not a function"

-- ═══════════════════════════════════════════════════════════════════════════
-- UNIFIED METRICS PAYLOAD CONTRACT
-- ═══════════════════════════════════════════════════════════════════════════

structure SystemVerdict where
  state : String
  reason : String
  timestamp : String

structure OperatorRecommendation where
  value : String
  details : String
  computedAt : String

structure SystemConfidence where
  score : ℚ
  evaluatedAt : String

structure Market where
  id : String
  connected : Bool
  latencyMs : Json
  lastUpdate : Json
  drift : ℚ
  activeStrategies : Nat
  lastSignal : Json
  lastDenial : Json

structure Markets where
  futures : Market
  crypto : Market

structure DataFreshness where
  brokerStatus : Json
  trades : Json
  strategies : Json
  gatePressure : Json

structure ProvingPipeline where
  total : Nat
  active : Nat
  queued : Nat
  health : Json

structure Promotions where
  recentCount : Json
  lastPromotion : Json
  history : Json

structure GatePressureActivity where
  current : Json
  pendingAction : Json
  recentDenials : Json

structure StrategyActivity where
  provingPipeline : ProvingPipeline
  promotions : Promotions
  gatePressure : GatePressureActivity

/-- One mapped entry of `positions` (per-field duck-typed fallback chains of
the source; `none` models JS `undefined`). -/
structure Position where
  id : String
  symbol : Option Json
  market : String
  size : Option Json
  entryPrice : Option Json
  currentPrice : Option Json
  pnl : Option Json
  openTime : Option Json

/-- One `sessionTimeline` entry (source field `at` is `atTime` here). -/
structure TimelineEvent where
  atTime : String
  market : String
  event : String
  actor : Option String

structure Timestamps where
  lastUpdatedMetrics : String
  serverTime : String

/-- The `_health` sub-object of the payload. -/
structure HealthBlock where
  vpsReachable : Bool
  totalEndpoints : Nat
  healthyEndpoints : Nat
  degradedEndpoints : Nat
  avgLatencyMs : ℤ
  lastChecked : String

/-- One `_proxy.endpoints` entry. -/
structure ProxyEndpoint where
  path : String
  success : Bool
  status : Nat
  latencyMs : Nat

/-- The `_proxy` sub-object of the payload. -/
structure ProxyMeta where
  source : String
  auth : String
  user : Option String
  userId : Option String
  timestamp : String
  endpoints : List ProxyEndpoint
  totalLatencyMs : Nat

/-- `UnifiedMetricsPayload` (`_health` is `healthBlock`, `_roles` is
`rolesStub`, `_proxy` is `proxyMeta`). -/
structure Payload where
  systemVerdict : SystemVerdict
  operatorRecommendation : OperatorRecommendation
  systemConfidence : SystemConfidence
  markets : Markets
  dataFreshness : DataFreshness
  strategyActivity : StrategyActivity
  positions : List Position
  sessionTimeline : List TimelineEvent
  timestamps : Timestamps
  healthBlock : HealthBlock
  riskCoupling : Option Json
  rolesStub : Option Json
  proxyMeta : ProxyMeta

/-- `(trades.positions || []).map((p, i) => ...)`: a falsy `positions`
falls back to `[]`; a truthy non-array value has no `map` method, so the
call throws a TypeError; a `null` array element makes the mapper's
property accesses (`p.symbol`, ...) throw. -/
def mkPositions (trades : Json) : Except String (List Position) :=
  match jsOr (trades.get "positions") (.arr []) with
  | .arr xs =>
    if xs.any Json.isNull then
      .error "TypeError: Cannot read properties of null (reading symbol)"
    else
      .ok (xs.enum.map (fun p =>
        { id := "p" ++ toString (p.1 + 1)
          symbol := p.2.get "symbol"
          market := "FUT"
          size := jsOrOpt (p.2.get "size") (p.2.get "quantity")
          entryPrice := jsOrOpt (p.2.get "entry_price") (p.2.get "avg_price")
          currentPrice := jsOrOpt (p.2.get "current_price") (p.2.get "mark_price")
          pnl := jsOrOpt (p.2.get "unrealized_pnl") (p.2.get "pnl")
          openTime := jsOrOpt (p.2.get "open_time") (p.2.get "timestamp") }))
  | _ => .error "TypeError: trades.positions.map is not a function"

-- ═══════════════════════════════════════════════════════════════════════════
-- SHARED AGGREGATION FUNCTION (`fetchAndAggregateMetrics`)
-- ═══════════════════════════════════════════════════════════════════════════

/-- Successful outcome of `fetchAndAggregateMetrics`, plus the health map
after the call's five `recordEndpointResult` side effects and the
fire-and-forget session-recording dispatch (if any). -/
structure AggSuccess where
  payload : Payload
  endpointResults : List EndpointResult
  totalLatencyMs : Nat
  healthAfter : HealthState
  sessionDispatch : Option (String × String × String)

/-- `fetchAndAggregateMetrics(authResult, sessionId)` from index.ts.  The
five fan-out calls run in parallel in the source and settle in any order;
their per-entry health updates commute (distinct endpoints), so they are
applied here in list order.  Thrown errors (caught by the route handlers)
are internal-JWT signing failure and the merge TypeErrors on mis-typed
upstream JSON, propagated in the source's evaluation order: active count,
queued count, promotions history, positions.  HTTP-level fan-out faults are
absorbed into the results. -/
def fetchAndAggregateMetrics (cfg : Config) (authResult : AuthResult)
    (sessionId : String) (env : UpstreamEnv) (st : HealthState) :
    Except String AggSuccess :=
  match createInternalJWT (authResult.userId.getD "")
      (authResult.email.getD "") (authResult.role.getD "")
      cfg.internalJwtSecret env.clockSec with
  | .error e => .error e
  | .ok _internalJWT =>
    let results := AGGREGATE_ENDPOINTS.map
      (fun ep => runFetch ep (env.outcome ep) (env.latency ep))
    let st1 := results.foldl
      (fun s r =>
        recordEndpointResult s r.endpoint r.success r.latencyMs env.nowIso) st
    let broker := sectionData results "/brokers/status"
    let trades := sectionData results "/trades/live"
    let proving := sectionData results "/strategies/proving"
    let promotions := sectionData results "/strategies/promotions"
    let gatePressure := sectionData results "/metrics/gate-pressure"
    let evalTime := env.nowIso
    let isConnected := isJsTrue (broker.get "connected")
    match countStrategiesWithState proving "active" with
    | .error e => .error e
    | .ok activeStrategies =>
      let healthSnapshot := getHealthSnapshot st1 env.nowIso
      match countStrategiesWithState proving "queued" with
      | .error e => .error e
      | .ok queuedStrategies =>
        match historySlice promotions with
        | .error e => .error e
        | .ok historyVal =>
          match mkPositions trades with
          | .error e => .error e
          | .ok positionsVal =>
            let payload : Payload :=
              { systemVerdict :=
                  { state := if isConnected then "NOMINAL" else "DEGRADED"
                    reason := if isConnected then "All systems operational"
                              else "Broker connection issue detected"
                    timestamp := evalTime }
                operatorRecommendation :=
                  { value := if 0 < activeStrategies then "MONITOR" else "INVESTIGATE"
                    details := if 0 < activeStrategies then
                        toString activeStrategies ++
                          " strategies active. System operating normally."
                      else "No active strategies. Check proving pipeline."
                    computedAt := evalTime }
                systemConfidence :=
                  { score := if isConnected then (94.5 : ℚ) else (65.0 : ℚ)
                    evaluatedAt := evalTime }
                markets :=
                  { futures :=
                      { id := "FUT"
                        connected := isConnected
                        latencyMs := jsOr (broker.get "latency_ms") (.num 0)
                        lastUpdate := jsOr (broker.get "timestamp_utc") (.str evalTime)
                        drift := (0.02 : ℚ)
                        activeStrategies := activeStrategies
                        lastSignal := jsOr (proving.get "last_signal") .null
                        lastDenial := jsOr (gatePressure.get "last_denial") .null }
                    crypto :=
                      { id := "CRY"
                        connected := false
                        latencyMs := .num 0
                        lastUpdate := .str evalTime
                        drift := 0
                        activeStrategies := 0
                        lastSignal := .null
                        lastDenial := .null } }
                dataFreshness :=
                  { brokerStatus := jsOr (broker.get "timestamp_utc") .null
                    trades := jsOr (trades.get "timestamp_utc") .null
                    strategies := jsOr (proving.get "timestamp_utc") .null
                    gatePressure := jsOr (gatePressure.get "timestamp_utc") .null }
                strategyActivity :=
                  { provingPipeline :=
                      { total := strategiesLen proving
                        active := activeStrategies
                        queued := queuedStrategies
                        health := jsOr (proving.get "pipeline_health") (.num 100) }
                    promotions :=
                      { recentCount := jsOr (promotions.get "recent_count") (.num 0)
                        lastPromotion := jsOr (promotions.get "last_promotion") .null
                        history := historyVal }
                    gatePressure :=
                      { current := jsOr (gatePressure.get "current_pressure") (.num 0)
                        pendingAction :=
                          jsOr (gatePressure.get "pending_action") (.str "None")
                        recentDenials :=
                          jsOr (gatePressure.get "recent_denials") (.arr []) } }
                positions := positionsVal
                sessionTimeline :=
                  [{ atTime := evalTime
                     market := "FUT"
                     event := "Dashboard data fetched via JWT proxy"
                     actor := authResult.email }]
                timestamps :=
                  { lastUpdatedMetrics := evalTime
                    serverTime := env.serverTimeIso }
                healthBlock :=
                  { vpsReachable := healthSnapshot.vpsReachable
                    totalEndpoints := healthSnapshot.totalEndpoints
                    healthyEndpoints := healthSnapshot.healthyEndpoints
                    degradedEndpoints := healthSnapshot.degradedEndpoints
                    avgLatencyMs := healthSnapshot.avgOverallLatencyMs
                    lastChecked := healthSnapshot.lastChecked }
                riskCoupling := none
                rolesStub := none
                proxyMeta :=
                  { source := "vps-live"
                    auth := "jwt"
                    user := authResult.email
                    userId := authResult.userId
                    timestamp := evalTime
                    endpoints := results.map (fun r =>
                      { path := r.endpoint
                        success := r.success
                        status := if r.success then 200 else r.status.getD 0
                        latencyMs := r.latencyMs })
                    totalLatencyMs := env.totalLatencyMs } }
            .ok { payload := payload
                  endpointResults := results
                  totalLatencyMs := env.totalLatencyMs
                  healthAfter := st1
                  sessionDispatch :=
                    if sessionId != "" && optStrTruthy authResult.userId then
                      some (sessionId, authResult.userId.getD "", "metrics_fetch")
                    else none }

-- ═══════════════════════════════════════════════════════════════════════════
-- EDGE ROUTER: /v1/metrics/aggregate and legacy /dashboard
-- ═══════════════════════════════════════════════════════════════════════════

/-- Response body of the aggregation routes: the payload on success, or the
structured error object. -/
inductive AggBody where
  | ok (payload : Payload)
  | err (label : String) (message : Option String) (hint : Option String)

/-- An HTTP response of the edge router with the headers set via
`c.header(...)`. -/
structure AggResponse where
  status : Nat
  headers : List (String × String)
  body : AggBody

/-- Headers set by the `/metrics-proxy-jwt/v1/*` middleware after a
successful credential check: the rate-limiting stub headers and the API
version header.  `nowEpochMs` is the middleware's `Date.now()`. -/
def rateLimitHeaders (nowEpochMs : Nat) : List (String × String) :=
  [("X-RateLimit-Limit", "60"),
   ("X-RateLimit-Remaining", "59"),
   ("X-RateLimit-Reset", toString (nowEpochMs / 1000 + 60)),
   ("X-API-Version", API_VERSION)]

/-- `GET /metrics-proxy-jwt/v1/metrics/aggregate` including the `/v1/*`
auth middleware.  `authResult` is the outcome of `verifySupabaseJWT` for the
request's Authorization header; `sessionId` is the `X-Session-Id` header. -/
def aggregateRouteV1 (cfg : Config) (authResult : AuthResult)
    (sessionId : String) (env : UpstreamEnv) (st : HealthState)
    (nowEpochMs : Nat) : AggResponse :=
  if !authResult.valid then
    { status := 401, headers := [],
      body := .err "Unauthorized" authResult.error
        (some "Provide a valid Supabase JWT in Authorization header") }
  else
    let hs := rateLimitHeaders nowEpochMs
    if cfg.vpsMetricsEndpoint = "" then
      { status := 503, headers := hs,
        body := .err "VPS endpoint not configured" none none }
    else
      match fetchAndAggregateMetrics cfg authResult sessionId env st with
      | .error e =>
        { status := 500, headers := hs,
          body := .err "Aggregation error" (some e) none }
      | .ok r => { status := 200, headers := hs, body := .ok r.payload }

/-- Deprecation headers set by the legacy `/dashboard` handler. -/
def dashboardDeprecationHeaders : List (String × String) :=
  [("Deprecation", "true"),
   ("Sunset", "2026-06-01"),
   ("Link", "</metrics-proxy-jwt/v1/metrics/aggregate>; rel=\"successor-version\"")]

/-- `GET /metrics-proxy-jwt/dashboard` (legacy, deprecated): does its own
credential check (no `/v1/*` middleware, hence no rate-limit/API-version
headers), calls the same shared aggregation function, and sets the
deprecation headers on the success path. -/
def dashboardRoute (cfg : Config) (authResult : AuthResult)
    (sessionId : String) (env : UpstreamEnv) (st : HealthState) : AggResponse :=
  if !authResult.valid then
    { status := 401, headers := [],
      body := .err "Unauthorized" authResult.error none }
  else if cfg.vpsMetricsEndpoint = "" then
    { status := 503, headers := [],
      body := .err "VPS endpoint not configured" none none }
  else
    match fetchAndAggregateMetrics cfg authResult sessionId env st with
    | .error e =>
      { status := 500, headers := [],
        body := .err "Dashboard proxy error" (some e) none }
    | .ok r =>
      { status := 200, headers := dashboardDeprecationHeaders,
        body := .ok r.payload }

-- ═══════════════════════════════════════════════════════════════════════════
-- EDGE ROUTER: legacy generic proxy `GET /metrics-proxy-jwt/proxy`
-- ═══════════════════════════════════════════════════════════════════════════

/-- Outcome trace of the generic proxy handler: the HTTP response essentials
plus whether credential verification was attempted and whether the upstream
fetch was issued. -/
structure ProxyTrace where
  status : Nat
  errorLabel : Option String
  headers : List (String × String)
  verifyAttempted : Bool
  upstreamCalled : Bool
deriving DecidableEq, Repr

/-- JS `s.startsWith(pre)`, modelled on the character lists. -/
def strStartsWith (s pre : String) : Bool :=
  pre.data.isPrefixOf s.data

/-- `ALLOWED_PATHS.some(p => path === p || path.startsWith(p + "/"))`. -/
def pathAllowed (path : String) : Bool :=
  ALLOWED_PATHS.any (fun p => path == p || strStartsWith path (p ++ "/"))

/-- `GET /metrics-proxy-jwt/proxy?path=...`: whitelist check first, then
credential verification, then config check, then mint + upstream fetch;
thrown errors are caught as 500 "Proxy error". -/
def proxyRoute (path : String) (authResult : AuthResult) (cfg : Config)
    (upstream : FetchOutcome) : ProxyTrace :=
  if (path == "") || !pathAllowed path then
    { status := 400, errorLabel := some "Invalid path", headers := [],
      verifyAttempted := false, upstreamCalled := false }
  else if !authResult.valid then
    { status := 401, errorLabel := some "Unauthorized", headers := [],
      verifyAttempted := true, upstreamCalled := false }
  else if cfg.vpsMetricsEndpoint = "" then
    { status := 503, errorLabel := some "VPS endpoint not configured",
      headers := [], verifyAttempted := true, upstreamCalled := false }
  else if cfg.internalJwtSecret = "" then
    { status := 500, errorLabel := some "Proxy error", headers := [],
      verifyAttempted := true, upstreamCalled := false }
  else
    match upstream with
    | .ok _ _ =>
      { status := 200, errorLabel := none, headers := [],
        verifyAttempted := true, upstreamCalled := true }
    | .httpError s =>
      { status := s, errorLabel := some "VPS request failed", headers := [],
        verifyAttempted := true, upstreamCalled := true }
    | .networkError _ =>
      { status := 500, errorLabel := some "Proxy error", headers := [],
        verifyAttempted := true, upstreamCalled := true }

-- ═══════════════════════════════════════════════════════════════════════════
-- Aggregation route lemmas and concrete fixtures
-- ═══════════════════════════════════════════════════════════════════════════

/-- Extract the payload of a 200 aggregation response. -/
def respPayload (r : AggResponse) : Option Payload :=
  match r.body with
  | .ok p => some p
  | .err _ _ _ => none

/-- Extract the error label of an aggregation error response. -/
def respErrLabel (r : AggResponse) : Option String :=
  match r.body with
  | .ok _ => none
  | .err label _ _ => some label

theorem fetchAndAggregateMetrics_error (cfg : Config) (a : AuthResult)
    (sid : String) (env : UpstreamEnv) (st : HealthState)
    (hsec : cfg.internalJwtSecret = "") :
    fetchAndAggregateMetrics cfg a sid env st =
      .error "HMAC key must not be empty" := by
  simp only [fetchAndAggregateMetrics, createInternalJWT, if_pos hsec]

theorem runFetch_data_of_failed (ep : String) (o : FetchOutcome) (l : Nat)
    (h : o.failed = true) : (runFetch ep o l).data = none := by
  cases o with
  | ok s d => simp [FetchOutcome.failed] at h
  | httpError s => rfl
  | networkError m => rfl

theorem runFetch_success_of_failed (ep : String) (o : FetchOutcome) (l : Nat)
    (h : o.failed = true) : (runFetch ep o l).success = false := by
  cases o with
  | ok s d => simp [FetchOutcome.failed] at h
  | httpError s => rfl
  | networkError m => rfl

theorem sectionData_of_data_none (results : List EndpointResult) (ep : String)
    (h : ∀ r ∈ results, r.data = none) :
    sectionData results ep = Json.obj [] := by
  cases hf : results.find? (fun r => r.endpoint == ep) with
  | some r =>
    have hr := List.mem_of_find?_eq_some hf
    simp [sectionData, hf, h r hr, jsOr]
  | none => simp [sectionData, hf]

/-- The health map after the five fan-out records of one aggregation call. -/
def aggHealthAfter (env : UpstreamEnv) (st : HealthState) : HealthState :=
  (AGGREGATE_ENDPOINTS.map
    (fun ep => runFetch ep (env.outcome ep) (env.latency ep))).foldl
    (fun s r =>
      recordEndpointResult s r.endpoint r.success r.latencyMs env.nowIso) st

theorem countStrategiesWithState_empty (tag : String) :
    countStrategiesWithState (Json.obj []) tag = .ok 0 := rfl

theorem historySlice_empty : historySlice (Json.obj []) = .ok (Json.arr []) :=
  rfl

theorem mkPositions_empty : mkPositions (Json.obj []) = .ok [] := rfl

/-- When every fan-out call fails at the HTTP/network level, every merge
section is `{}` and the aggregation returns successfully; the default
payload fields follow. -/
theorem fetch_ok_of_all_failed (cfg : Config) (a : AuthResult) (sid : String)
    (env : UpstreamEnv) (st : HealthState)
    (hsec : cfg.internalJwtSecret ≠ "")
    (hfail : ∀ ep ∈ AGGREGATE_ENDPOINTS, (env.outcome ep).failed = true) :
    ∃ r : AggSuccess, fetchAndAggregateMetrics cfg a sid env st = .ok r ∧
      r.payload.markets.futures.connected = false ∧
      r.payload.markets.crypto.connected = false ∧
      r.payload.positions = [] ∧
      r.payload.healthBlock.vpsReachable =
        (getHealthSnapshot (aggHealthAfter env st) env.nowIso).vpsReachable := by
  have hdata : ∀ x ∈ AGGREGATE_ENDPOINTS.map
      (fun ep => runFetch ep (env.outcome ep) (env.latency ep)),
      x.data = none := by
    intro x hx
    obtain ⟨ep, hep, hx2⟩ := List.mem_map.mp hx
    rw [← hx2]
    exact runFetch_data_of_failed ep _ _ (hfail ep hep)
  have hsection : ∀ q, sectionData (AGGREGATE_ENDPOINTS.map
      (fun ep => runFetch ep (env.outcome ep) (env.latency ep))) q =
      Json.obj [] :=
    fun q => sectionData_of_data_none _ q hdata
  simp only [fetchAndAggregateMetrics, createInternalJWT, if_neg hsec,
    hsection, countStrategiesWithState_empty, historySlice_empty,
    mkPositions_empty]
  exact ⟨_, rfl, rfl, rfl, rfl, rfl⟩

theorem aggregateRouteV1_headers (cfg : Config) (a : AuthResult) (sid : String)
    (env : UpstreamEnv) (st : HealthState) (ne : Nat)
    (hvalid : a.valid = true) :
    (aggregateRouteV1 cfg a sid env st ne).headers = rateLimitHeaders ne := by
  by_cases hv : cfg.vpsMetricsEndpoint = ""
  · simp [aggregateRouteV1, hvalid, hv]
  · cases hagg : fetchAndAggregateMetrics cfg a sid env st with
    | error e => simp [aggregateRouteV1, hvalid, hv, hagg]
    | ok r => simp [aggregateRouteV1, hvalid, hv, hagg]

/-- Fixture: a fully configured edge function. -/
def cfgW : Config :=
  { vpsMetricsEndpoint := "https://vps.example", internalJwtSecret := "k" }

/-- Fixture: configured upstream address but missing signing key. -/
def cfgNoSecret : Config :=
  { vpsMetricsEndpoint := "https://vps.example", internalJwtSecret := "" }

/-- Fixture: a verified identity. -/
def authW : AuthResult :=
  { valid := true, userId := some "u1", email := some "e@x.io",
    role := some "authenticated", error := none }

/-- Fixture: every upstream fan-out call fails at the network level. -/
def envW : UpstreamEnv :=
  { outcome := fun _ => .networkError "connection refused"
    latency := fun _ => 3
    clockSec := 100
    nowIso := "2026-01-01T00:00:00.000Z"
    serverTimeIso := "2026-01-01T00:00:00.250Z"
    totalLatencyMs := 12 }

/-- Fixture: one successful observation. -/
def obsWarm : Obs :=
  { success := true, latencyMs := 5, now := "2025-12-31T23:59:00.000Z" }

/-- Fixture: a health map warmed by 10 successful observations of one
endpoint before the aggregation under test (a reachable state: it is a
replay of `recordEndpointResult` calls). -/
def warmHealth : HealthState :=
  applyObs [] "/brokers/status" (List.replicate 10 obsWarm)

/-- The warmed entry of `warmHealth`. -/
def E10W : EndpointHealthEntry :=
  entryFold (initEndpointHealth "/brokers/status") (List.replicate 10 obsWarm)

-- ═══════════════════════════════════════════════════════════════════════════
-- CLAIM C5
-- ═══════════════════════════════════════════════════════════════════════════

/-- Claim C5, counterexample: The two responses do *not* differ only in the
deprecation headers: the versioned path carries the `X-API-Version` advisory
header (from the `/v1/*` middleware), which the legacy path lacks, even
though both answer 200 for the same identity and upstream state. -/
theorem C5_counterexample :
    (aggregateRouteV1 cfgW authW "" envW [] 0).status = 200 ∧
    (dashboardRoute cfgW authW "" envW []).status = 200 ∧
    ("X-API-Version", "v1") ∈ (aggregateRouteV1 cfgW authW "" envW [] 0).headers ∧
    ("X-API-Version", "v1") ∉ (dashboardRoute cfgW authW "" envW []).headers := by
  decide

/-- Claim C5, amended: the legacy `/dashboard` path and the versioned
`/v1/metrics/aggregate` path hand the same identity and session id to the
same shared aggregation function and stay in lock-step with it: whenever
aggregation succeeds, both answer 200 with the identical payload, the
responses then differing in headers both ways — the legacy response carries
exactly the deprecation headers (`Deprecation: true`, `Sunset: 2026-06-01`,
successor-version `Link`) while the versioned response instead carries
exactly the advisory rate-limit/API-version headers; and whenever
aggregation throws (signing failure, or a merge TypeError on mis-typed
upstream JSON), both answer 500 with the same message but under different
labels (`"Aggregation error"` vs `"Dashboard proxy error"`). -/
theorem C5_same_payload_modulo_headers (cfg : Config) (authResult : AuthResult)
    (sessionId : String) (env : UpstreamEnv) (st : HealthState)
    (nowEpochMs : Nat) (hvalid : authResult.valid = true)
    (hcfg : cfg.vpsMetricsEndpoint ≠ "") :
    (∀ r : AggSuccess,
      fetchAndAggregateMetrics cfg authResult sessionId env st = .ok r →
      aggregateRouteV1 cfg authResult sessionId env st nowEpochMs =
        { status := 200, headers := rateLimitHeaders nowEpochMs,
          body := .ok r.payload } ∧
      dashboardRoute cfg authResult sessionId env st =
        { status := 200, headers := dashboardDeprecationHeaders,
          body := .ok r.payload }) ∧
    (∀ e : String,
      fetchAndAggregateMetrics cfg authResult sessionId env st = .error e →
      aggregateRouteV1 cfg authResult sessionId env st nowEpochMs =
        { status := 500, headers := rateLimitHeaders nowEpochMs,
          body := .err "Aggregation error" (some e) none } ∧
      dashboardRoute cfg authResult sessionId env st =
        { status := 500, headers := [],
          body := .err "Dashboard proxy error" (some e) none }) := by
  constructor
  · intro r hr
    exact ⟨by simp [aggregateRouteV1, hvalid, hcfg, hr],
      by simp [dashboardRoute, hvalid, hcfg, hr]⟩
  · intro e he
    exact ⟨by simp [aggregateRouteV1, hvalid, hcfg, he],
      by simp [dashboardRoute, hvalid, hcfg, he]⟩

/-- Witness for the amended C5 at a concrete identity and environment. -/
theorem C5_same_payload_modulo_headers_witness :
    authW.valid = true ∧ cfgW.vpsMetricsEndpoint ≠ "" ∧
    ((∀ r : AggSuccess,
      fetchAndAggregateMetrics cfgW authW "sess-9" envW [] = .ok r →
      aggregateRouteV1 cfgW authW "sess-9" envW [] 42 =
        { status := 200, headers := rateLimitHeaders 42,
          body := .ok r.payload } ∧
      dashboardRoute cfgW authW "sess-9" envW [] =
        { status := 200, headers := dashboardDeprecationHeaders,
          body := .ok r.payload }) ∧
    (∀ e : String,
      fetchAndAggregateMetrics cfgW authW "sess-9" envW [] = .error e →
      aggregateRouteV1 cfgW authW "sess-9" envW [] 42 =
        { status := 500, headers := rateLimitHeaders 42,
          body := .err "Aggregation error" (some e) none } ∧
      dashboardRoute cfgW authW "sess-9" envW [] =
        { status := 500, headers := [],
          body := .err "Dashboard proxy error" (some e) none })) :=
  ⟨by decide, by decide,
   C5_same_payload_modulo_headers cfgW authW "sess-9" envW [] 42
     (by decide) (by decide)⟩

-- ═══════════════════════════════════════════════════════════════════════════
-- CLAIM C7
-- ═══════════════════════════════════════════════════════════════════════════

/-- Claim C7, counterexample: With the upstream base configured and the signing
key missing, the aggregation route answers **500** with the generic
`"Aggregation error"` label produced by the catch-all handler — not a
503-class error as the claim states for signing failure. -/
theorem C7_counterexample :
    cfgNoSecret.internalJwtSecret = "" ∧
    cfgNoSecret.vpsMetricsEndpoint ≠ "" ∧
    (aggregateRouteV1 cfgNoSecret authW "" envW [] 0).status = 500 ∧
    (aggregateRouteV1 cfgNoSecret authW "" envW [] 0).status ≠ 503 ∧
    respErrLabel (aggregateRouteV1 cfgNoSecret authW "" envW [] 0) =
      some "Aggregation error" := by
  decide

/-- Fixture: an upstream environment whose `/strategies/proving` call
succeeds but returns a mis-typed body (`strategies: 1`), on which the
source's merge throws a TypeError (`?.filter` only guards nullish values). -/
def envBad : UpstreamEnv :=
  { outcome := fun ep =>
      if ep = "/strategies/proving" then
        .ok 200 (.obj [("strategies", .num 1)])
      else .networkError "connection refused"
    latency := fun _ => 3
    clockSec := 100
    nowIso := "2026-01-01T00:00:00.000Z"
    serverTimeIso := "2026-01-01T00:00:00.250Z"
    totalLatencyMs := 12 }

/-- Claim C7, amended: for an authenticated request, the only 503-class
outright failure of the aggregate route is the missing upstream base
address (distinct `"VPS endpoint not configured"` error); every thrown
aggregation error — internal-token signing failure on a missing key, but
also a merge TypeError on mis-typed upstream JSON from a *successful*
fan-out call — is collapsed by the catch-all into the generic
**500 `"Aggregation error"`**, not a distinct 503-class error; and
HTTP-level fan-out failures alone are always absorbed: even with every
fan-out call failing, aggregation succeeds and the route answers 200. -/
theorem C7_failure_modes (cfg : Config) (authResult : AuthResult)
    (sessionId : String) (env : UpstreamEnv) (st : HealthState)
    (nowEpochMs : Nat) (hvalid : authResult.valid = true) :
    ((aggregateRouteV1 cfg authResult sessionId env st nowEpochMs).status = 503
      ↔ cfg.vpsMetricsEndpoint = "") ∧
    (cfg.vpsMetricsEndpoint = "" →
      (aggregateRouteV1 cfg authResult sessionId env st nowEpochMs).body =
        .err "VPS endpoint not configured" none none) ∧
    (cfg.vpsMetricsEndpoint ≠ "" →
      ∀ e : String,
        fetchAndAggregateMetrics cfg authResult sessionId env st = .error e →
        aggregateRouteV1 cfg authResult sessionId env st nowEpochMs =
          { status := 500, headers := rateLimitHeaders nowEpochMs,
            body := .err "Aggregation error" (some e) none }) ∧
    (cfg.vpsMetricsEndpoint ≠ "" →
      ∀ r : AggSuccess,
        fetchAndAggregateMetrics cfg authResult sessionId env st = .ok r →
        aggregateRouteV1 cfg authResult sessionId env st nowEpochMs =
          { status := 200, headers := rateLimitHeaders nowEpochMs,
            body := .ok r.payload }) ∧
    (cfg.internalJwtSecret = "" →
      fetchAndAggregateMetrics cfg authResult sessionId env st =
        .error "HMAC key must not be empty") ∧
    (cfg.internalJwtSecret ≠ "" →
      (∀ ep ∈ AGGREGATE_ENDPOINTS, (env.outcome ep).failed = true) →
      ∃ r : AggSuccess,
        fetchAndAggregateMetrics cfg authResult sessionId env st = .ok r) ∧
    (cfg.internalJwtSecret ≠ "" →
      ∃ e : String,
        fetchAndAggregateMetrics cfg authResult sessionId envBad st =
          .error e) := by
  refine ⟨?_, ?_, ?_, ?_, ?_, ?_, ?_⟩
  · by_cases hv : cfg.vpsMetricsEndpoint = ""
    · simp [aggregateRouteV1, hvalid, hv]
    · cases hagg : fetchAndAggregateMetrics cfg authResult sessionId env st with
      | error e => simp [aggregateRouteV1, hvalid, hv, hagg]
      | ok r => simp [aggregateRouteV1, hvalid, hv, hagg]
  · intro hv
    simp [aggregateRouteV1, hvalid, hv]
  · intro hv e he
    simp [aggregateRouteV1, hvalid, hv, he]
  · intro hv r hr
    simp [aggregateRouteV1, hvalid, hv, hr]
  · intro hs
    exact fetchAndAggregateMetrics_error cfg authResult sessionId env st hs
  · intro hs hfail
    obtain ⟨r, hr, h2, h3, h4, h5⟩ :=
      fetch_ok_of_all_failed cfg authResult sessionId env st hs hfail
    exact ⟨r, hr⟩
  · intro hs
    simp only [fetchAndAggregateMetrics, createInternalJWT, if_neg hs]
    exact ⟨_, rfl⟩

/-- Witness for the amended C7 at a concrete identity and a configuration
missing the signing key. -/
theorem C7_failure_modes_witness :
    authW.valid = true ∧
    (((aggregateRouteV1 cfgNoSecret authW "" envW [] 7).status = 503
        ↔ cfgNoSecret.vpsMetricsEndpoint = "") ∧
     (cfgNoSecret.vpsMetricsEndpoint = "" →
       (aggregateRouteV1 cfgNoSecret authW "" envW [] 7).body =
         .err "VPS endpoint not configured" none none) ∧
     (cfgNoSecret.vpsMetricsEndpoint ≠ "" →
       ∀ e : String,
         fetchAndAggregateMetrics cfgNoSecret authW "" envW [] = .error e →
         aggregateRouteV1 cfgNoSecret authW "" envW [] 7 =
           { status := 500, headers := rateLimitHeaders 7,
             body := .err "Aggregation error" (some e) none }) ∧
     (cfgNoSecret.vpsMetricsEndpoint ≠ "" →
       ∀ r : AggSuccess,
         fetchAndAggregateMetrics cfgNoSecret authW "" envW [] = .ok r →
         aggregateRouteV1 cfgNoSecret authW "" envW [] 7 =
           { status := 200, headers := rateLimitHeaders 7,
             body := .ok r.payload }) ∧
     (cfgNoSecret.internalJwtSecret = "" →
       fetchAndAggregateMetrics cfgNoSecret authW "" envW [] =
         .error "HMAC key must not be empty") ∧
     (cfgNoSecret.internalJwtSecret ≠ "" →
       (∀ ep ∈ AGGREGATE_ENDPOINTS, (envW.outcome ep).failed = true) →
       ∃ r : AggSuccess,
         fetchAndAggregateMetrics cfgNoSecret authW "" envW [] = .ok r) ∧
     (cfgNoSecret.internalJwtSecret ≠ "" →
       ∃ e : String,
         fetchAndAggregateMetrics cfgNoSecret authW "" envBad [] =
           .error e)) :=
  ⟨by decide, C7_failure_modes cfgNoSecret authW "" envW [] 7 (by decide)⟩

-- ═══════════════════════════════════════════════════════════════════════════
-- CLAIM C8
-- ═══════════════════════════════════════════════════════════════════════════

/-- Claim C8, counterexample: The authenticated legacy `/dashboard` path answers
200 yet carries none of the advisory headers — contradicting the claim that
every authenticated response (including legacy paths) carries
`X-RateLimit-*` and `X-API-Version`. -/
theorem C8_counterexample :
    (dashboardRoute cfgW authW "" envW []).status = 200 ∧
    ((dashboardRoute cfgW authW "" envW []).headers.all
      (fun h => h.1 != "X-RateLimit-Limit" && h.1 != "X-RateLimit-Remaining"
        && h.1 != "X-RateLimit-Reset" && h.1 != "X-API-Version")) = true := by
  decide

/-- Claim C8, amended: The advisory headers `X-RateLimit-Limit`,
`X-RateLimit-Remaining`, `X-RateLimit-Reset` (epoch seconds) and
`X-API-Version` are attached exactly by the `/v1/*` middleware after a
successful credential check; the authenticated legacy paths (`/dashboard`
and `/proxy`) never attach any of them. -/
theorem C8_advisory_headers_only_on_v1 (cfg : Config) (a : AuthResult)
    (sid : String) (env : UpstreamEnv) (st : HealthState) (ne : Nat)
    (hvalid : a.valid = true) :
    (("X-RateLimit-Limit", "60") ∈
        (aggregateRouteV1 cfg a sid env st ne).headers ∧
     ("X-RateLimit-Remaining", "59") ∈
        (aggregateRouteV1 cfg a sid env st ne).headers ∧
     ("X-RateLimit-Reset", toString (ne / 1000 + 60)) ∈
        (aggregateRouteV1 cfg a sid env st ne).headers ∧
     ("X-API-Version", API_VERSION) ∈
        (aggregateRouteV1 cfg a sid env st ne).headers) ∧
    (∀ a2 : AuthResult, ∀ h ∈ (dashboardRoute cfg a2 sid env st).headers,
      h.1 ≠ "X-RateLimit-Limit" ∧ h.1 ≠ "X-RateLimit-Remaining" ∧
      h.1 ≠ "X-RateLimit-Reset" ∧ h.1 ≠ "X-API-Version") ∧
    (∀ (path : String) (a3 : AuthResult) (up : FetchOutcome),
      (proxyRoute path a3 cfg up).headers = []) := by
  refine ⟨?_, ?_, ?_⟩
  · rw [aggregateRouteV1_headers cfg a sid env st ne hvalid]
    simp [rateLimitHeaders]
  · intro a2 h hh
    have hcases : (dashboardRoute cfg a2 sid env st).headers = [] ∨
        (dashboardRoute cfg a2 sid env st).headers =
          dashboardDeprecationHeaders := by
      cases hv2 : a2.valid with
      | false => left; simp [dashboardRoute, hv2]
      | true =>
        by_cases hvp : cfg.vpsMetricsEndpoint = ""
        · left; simp [dashboardRoute, hv2, hvp]
        · cases hagg : fetchAndAggregateMetrics cfg a2 sid env st with
          | error e => left; simp [dashboardRoute, hv2, hvp, hagg]
          | ok r => right; simp [dashboardRoute, hv2, hvp, hagg]
    rcases hcases with hc | hc
    · rw [hc] at hh; simp at hh
    · rw [hc] at hh
      have hh3 : h = ("Deprecation", "true") ∨ h = ("Sunset", "2026-06-01") ∨
          h = ("Link",
            "</metrics-proxy-jwt/v1/metrics/aggregate>; rel=\"successor-version\"") := by
        simpa [dashboardDeprecationHeaders] using hh
      rcases hh3 with hh2 | hh2 | hh2 <;> subst hh2 <;>
        exact ⟨by decide, by decide, by decide, by decide⟩
  · intro path a3 up
    rw [proxyRoute.eq_def]
    split
    · rfl
    · split
      · rfl
      · split
        · rfl
        · split
          · rfl
          · cases up <;> rfl

/-- Witness for the amended C8 at a concrete identity. -/
theorem C8_advisory_headers_only_on_v1_witness :
    authW.valid = true ∧
    ((("X-RateLimit-Limit", "60") ∈
        (aggregateRouteV1 cfgW authW "" envW [] 1234).headers ∧
      ("X-RateLimit-Remaining", "59") ∈
        (aggregateRouteV1 cfgW authW "" envW [] 1234).headers ∧
      ("X-RateLimit-Reset", toString (1234 / 1000 + 60)) ∈
        (aggregateRouteV1 cfgW authW "" envW [] 1234).headers ∧
      ("X-API-Version", API_VERSION) ∈
        (aggregateRouteV1 cfgW authW "" envW [] 1234).headers) ∧
     (∀ a2 : AuthResult, ∀ h ∈ (dashboardRoute cfgW a2 "" envW []).headers,
       h.1 ≠ "X-RateLimit-Limit" ∧ h.1 ≠ "X-RateLimit-Remaining" ∧
       h.1 ≠ "X-RateLimit-Reset" ∧ h.1 ≠ "X-API-Version") ∧
     (∀ (path : String) (a3 : AuthResult) (up : FetchOutcome),
       (proxyRoute path a3 cfgW up).headers = [])) :=
  ⟨by decide, C8_advisory_headers_only_on_v1 cfgW authW "" envW [] 1234
    (by decide)⟩

-- ═══════════════════════════════════════════════════════════════════════════
-- CLAIM C4
-- ═══════════════════════════════════════════════════════════════════════════

theorem getEntry_mem :
    ∀ (st : HealthState) (ep : String) (e : EndpointHealthEntry),
      getEntry st ep = some e → (ep, e) ∈ st
  | [], _, _, h => by simp [getEntry] at h
  | (k, v) :: rest, ep, e, h => by
    by_cases hk : k = ep
    · subst hk
      have h3 : v = e := by simpa [getEntry] using h
      subst h3
      exact List.mem_cons_self _ _
    · have h2 : getEntry rest ep = some e := by simpa [getEntry, hk] using h
      exact List.mem_cons_of_mem _ (getEntry_mem rest ep e h2)

theorem record_preserves_zero_success (st : HealthState) (ep : String)
    (l : Nat) (n : String) (h : ∀ p ∈ st, p.2.successCount = 0) :
    ∀ p ∈ recordEndpointResult st ep false l n, p.2.successCount = 0 := by
  intro p hp
  simp only [recordEndpointResult] at hp
  rcases mem_setEntry _ _ _ p hp with h1 | h1
  · rw [h1]
    simp only [recordEntryUpdate_successCount, if_neg Bool.false_ne_true,
      Nat.add_zero]
    cases hg : getEntry st ep with
    | some e0 =>
      have h0 : e0.successCount = 0 := h _ (getEntry_mem st ep e0 hg)
      simp [hg, h0]
    | none => simp [hg, initEndpointHealth]
  · exact h p h1

theorem foldl_record_zero_success (n : String) :
    ∀ (results : List EndpointResult) (st : HealthState),
      (∀ r ∈ results, r.success = false) →
      (∀ p ∈ st, p.2.successCount = 0) →
      ∀ p ∈ results.foldl
          (fun s r =>
            recordEndpointResult s r.endpoint r.success r.latencyMs n) st,
        p.2.successCount = 0
  | [], _, _, hst => hst
  | r :: rest, st, hres, hst => by
    have hr : r.success = false := hres r (List.mem_cons_self _ _)
    have hstep : ∀ p ∈ recordEndpointResult st r.endpoint r.success
        r.latencyMs n, p.2.successCount = 0 := by
      rw [hr]
      exact record_preserves_zero_success st r.endpoint r.latencyMs n hst
    exact foldl_record_zero_success n rest _
      (fun x hx => hres x (List.mem_cons_of_mem _ hx)) hstep

theorem entryRate_zero (e : EndpointHealthEntry) (h : e.successCount = 0) :
    entryRate e = 0 := by
  rw [entryRate, h]
  split <;> simp

theorem entryStatus_zero (e : EndpointHealthEntry) (h : e.successCount = 0) :
    entryStatus e = "down" := by
  rw [entryStatus, entryRate_zero e h, statusOf]
  norm_num

theorem vpsReachable_false_of_zero (st1 : HealthState) (n : String)
    (h : ∀ p ∈ st1, p.2.successCount = 0) :
    (getHealthSnapshot st1 n).vpsReachable = false := by
  have hfil : st1.filter (fun p => entryStatus p.2 == "healthy") = [] := by
    rw [List.filter_eq_nil_iff]
    intro p hp
    rw [entryStatus_zero p.2 (h p hp)]
    decide
  simp [getHealthSnapshot, hfil]

theorem record_head_same (k : String) (v : EndpointHealthEntry)
    (rest : HealthState) (s : Bool) (l : Nat) (n : String) :
    recordEndpointResult ((k, v) :: rest) k s l n =
      (k, recordEntryUpdate v s l n) :: rest := by
  simp [recordEndpointResult, getEntry, setEntry]

theorem record_head_other (k : String) (v : EndpointHealthEntry)
    (rest : HealthState) (ep : String) (hk : k ≠ ep) (s : Bool) (l : Nat)
    (n : String) :
    recordEndpointResult ((k, v) :: rest) ep s l n =
      (k, v) :: recordEndpointResult rest ep s l n := by
  simp [recordEndpointResult, getEntry, setEntry, hk]

theorem vpsReachable_true_of_healthy_mem (st1 : HealthState) (n : String)
    (p : String × EndpointHealthEntry) (hp : p ∈ st1)
    (h : entryStatus p.2 = "healthy") :
    (getHealthSnapshot st1 n).vpsReachable = true := by
  have hmem : p ∈ st1.filter (fun q => entryStatus q.2 == "healthy") :=
    List.mem_filter.mpr ⟨hp, by simp [h]⟩
  have hlen : 0 < (st1.filter (fun q => entryStatus q.2 == "healthy")).length :=
    List.length_pos.mpr (List.ne_nil_of_mem hmem)
  simp [getHealthSnapshot, hlen]

theorem filter_obs_replicate (nrep : Nat) :
    ((List.replicate nrep obsWarm).filter Obs.success).length = nrep ∧
    ((List.replicate nrep obsWarm).filter (fun o => !o.success)).length = 0 := by
  induction nrep with
  | zero => exact ⟨rfl, rfl⟩
  | succ k ih =>
    constructor <;>
      simp [List.replicate_succ, List.filter_cons, obsWarm, ih.1, ih.2]

/-- Claim C4, counterexample: Starting from a health map warmed by 10 earlier
successes of one endpoint, an aggregation in which all five fan-out calls
fail still reports `_health.vpsReachable = true` (the warmed endpoint keeps a
10/11 ≈ 0.91 success rate, hence stays "healthy"), contradicting the claim
that such an aggregation always yields `_health.vpsReachable = false`. -/
theorem C4_counterexample :
    (AGGREGATE_ENDPOINTS.all (fun ep => (envW.outcome ep).failed)) = true ∧
    (respPayload (aggregateRouteV1 cfgW authW "" envW warmHealth 0)).map
      (fun p => p.healthBlock.vpsReachable) = some true := by
  constructor
  · decide
  · have hsec : cfgW.internalJwtSecret ≠ "" := by decide
    have hv : authW.valid = true := rfl
    have hc : ¬ cfgW.vpsMetricsEndpoint = "" := by decide
    obtain ⟨r, hr, -, -, -, hvr⟩ :=
      fetch_ok_of_all_failed cfgW authW "" envW warmHealth hsec (by decide)
    have hroute : aggregateRouteV1 cfgW authW "" envW warmHealth 0 =
        { status := 200, headers := rateLimitHeaders 0,
          body := .ok r.payload } := by
      simp [aggregateRouteV1, hv, hc, hr]
    rw [hroute]
    have hwarm : warmHealth = [("/brokers/status", E10W)] :=
      applyObs_nil _ _ (by simp)
    have hsc10 : E10W.successCount = 10 := by
      show (entryFold (initEndpointHealth "/brokers/status")
        (List.replicate 10 obsWarm)).successCount = 10
      rw [entryFold_successCount, (filter_obs_replicate 10).1]
      simp [initEndpointHealth]
    have hfc10 : E10W.failureCount = 0 := by
      show (entryFold (initEndpointHealth "/brokers/status")
        (List.replicate 10 obsWarm)).failureCount = 0
      rw [entryFold_failureCount, (filter_obs_replicate 10).2]
      simp [initEndpointHealth]
    have hsc11 : (recordEntryUpdate E10W false 3 envW.nowIso).successCount
        = 10 := by
      rw [recordEntryUpdate_successCount, hsc10]
      simp
    have hfc11 : (recordEntryUpdate E10W false 3 envW.nowIso).failureCount
        = 1 := by
      rw [recordEntryUpdate_failureCount, hfc10]
      simp
    have hrate : entryRate (recordEntryUpdate E10W false 3 envW.nowIso) =
        (10 : ℚ) / 11 := by
      rw [entryRate, hsc11, hfc11]
      norm_num
    have hstat : entryStatus (recordEntryUpdate E10W false 3 envW.nowIso) =
        "healthy" := by
      rw [entryStatus, hrate, statusOf,
        if_pos (by norm_num : (0.9 : ℚ) ≤ 10 / 11)]
    have hmem : ("/brokers/status",
        recordEntryUpdate E10W false 3 envW.nowIso) ∈
        aggHealthAfter envW warmHealth := by
      simp only [aggHealthAfter, hwarm, AGGREGATE_ENDPOINTS, envW,
        List.map_cons, List.map_nil, List.foldl_cons, List.foldl_nil,
        runFetch]
      rw [record_head_same]
      rw [record_head_other _ _ _ _
        (by decide : "/brokers/status" ≠ "/trades/live")]
      rw [record_head_other _ _ _ _
        (by decide : "/brokers/status" ≠ "/strategies/proving")]
      rw [record_head_other _ _ _ _
        (by decide : "/brokers/status" ≠ "/strategies/promotions")]
      rw [record_head_other _ _ _ _
        (by decide : "/brokers/status" ≠ "/metrics/gate-pressure")]
      exact List.mem_cons_self _ _
    simp only [respPayload, Option.map_some']
    rw [hvr,
      vpsReachable_true_of_healthy_mem _ envW.nowIso _ hmem hstat]

/-- Claim C4, amended: From a cold-start (empty) health map, when every one
of the five upstream fan-out calls fails, the aggregation still completes
successfully — HTTP 200 with no top-level error — and its payload has
`markets.futures.connected = false`, `markets.crypto.connected = false`,
`positions = []` and `_health.vpsReachable = false`. -/
theorem C4_all_upstreams_fail_cold_start (cfg : Config)
    (authResult : AuthResult) (sessionId : String) (env : UpstreamEnv)
    (nowEpochMs : Nat) (hvalid : authResult.valid = true)
    (hcfg : cfg.vpsMetricsEndpoint ≠ "") (hsec : cfg.internalJwtSecret ≠ "")
    (hfail : ∀ ep ∈ AGGREGATE_ENDPOINTS, (env.outcome ep).failed = true) :
    ∃ r : AggSuccess,
      fetchAndAggregateMetrics cfg authResult sessionId env [] = .ok r ∧
      aggregateRouteV1 cfg authResult sessionId env [] nowEpochMs =
        { status := 200, headers := rateLimitHeaders nowEpochMs,
          body := .ok r.payload } ∧
      r.payload.markets.futures.connected = false ∧
      r.payload.markets.crypto.connected = false ∧
      r.payload.positions = [] ∧
      r.payload.healthBlock.vpsReachable = false := by
  obtain ⟨r, hr, hfc, hcc, hpos, hvps⟩ :=
    fetch_ok_of_all_failed cfg authResult sessionId env [] hsec hfail
  have hsucc : ∀ x ∈ AGGREGATE_ENDPOINTS.map
      (fun ep => runFetch ep (env.outcome ep) (env.latency ep)),
      x.success = false := by
    intro x hx
    obtain ⟨ep, hep, hx2⟩ := List.mem_map.mp hx
    rw [← hx2]
    exact runFetch_success_of_failed ep _ _ (hfail ep hep)
  have hzero : ∀ p ∈ aggHealthAfter env [], p.2.successCount = 0 :=
    foldl_record_zero_success env.nowIso _ [] hsucc
      (by intro p hp; simp at hp)
  refine ⟨r, hr, by simp [aggregateRouteV1, hvalid, hcfg, hr], hfc, hcc,
    hpos, ?_⟩
  rw [hvps]
  exact vpsReachable_false_of_zero _ env.nowIso hzero

/-- Witness for the amended C4 at a concrete identity and all-failing
upstream environment. -/
theorem C4_all_upstreams_fail_cold_start_witness :
    authW.valid = true ∧ cfgW.vpsMetricsEndpoint ≠ "" ∧
    cfgW.internalJwtSecret ≠ "" ∧
    (∀ ep ∈ AGGREGATE_ENDPOINTS, (envW.outcome ep).failed = true) ∧
    (∃ r : AggSuccess,
      fetchAndAggregateMetrics cfgW authW "" envW [] = .ok r ∧
      aggregateRouteV1 cfgW authW "" envW [] 5 =
        { status := 200, headers := rateLimitHeaders 5,
          body := .ok r.payload } ∧
      r.payload.markets.futures.connected = false ∧
      r.payload.markets.crypto.connected = false ∧
      r.payload.positions = [] ∧
      r.payload.healthBlock.vpsReachable = false) :=
  ⟨by decide, by decide, by decide, by decide,
   C4_all_upstreams_fail_cold_start cfgW authW "" envW 5 (by decide)
     (by decide) (by decide) (by decide)⟩

-- ═══════════════════════════════════════════════════════════════════════════
-- CLAIM C10
-- ═══════════════════════════════════════════════════════════════════════════

/-- Claim C10: For every request to the generic proxy endpoint whose `path`
query parameter is empty, or neither exactly equals one of the seven
whitelisted upstream paths nor extends one of them followed by `"/"`, the
handler answers HTTP 400 with an `"Invalid path"` error before credential
verification is attempted, and the upstream fetch branch is unreachable. -/
theorem C10_proxy_rejects_non_whitelisted (path : String) (a : AuthResult)
    (cfg : Config) (up : FetchOutcome)
    (h : path = "" ∨ ∀ p ∈ ALLOWED_PATHS, path ≠ p ∧
      strStartsWith path (p ++ "/") = false) :
    proxyRoute path a cfg up =
      { status := 400, errorLabel := some "Invalid path", headers := [],
        verifyAttempted := false, upstreamCalled := false } := by
  have hcond : ((path == "") || !pathAllowed path) = true := by
    rcases h with h | h
    · subst h; rfl
    · have hall : pathAllowed path = false := by
        rw [pathAllowed, List.any_eq_false]
        intro q hq
        have hq2 := h q hq
        simp only [Bool.or_eq_true, not_or, beq_iff_eq]
        exact ⟨hq2.1, by rw [hq2.2]; exact Bool.false_ne_true⟩
      simp [hall]
  rw [proxyRoute.eq_def, if_pos hcond]

/-- Witness for C10 at a concrete non-whitelisted path. -/
theorem C10_proxy_rejects_non_whitelisted_witness :
    ("/etc/passwd" = "" ∨ ∀ p ∈ ALLOWED_PATHS, "/etc/passwd" ≠ p ∧
      strStartsWith "/etc/passwd" (p ++ "/") = false) ∧
    proxyRoute "/etc/passwd" authW cfgW (.ok 200 .null) =
      { status := 400, errorLabel := some "Invalid path", headers := [],
        verifyAttempted := false, upstreamCalled := false } :=
  ⟨Or.inr (by decide),
   C10_proxy_rejects_non_whitelisted "/etc/passwd" authW cfgW (.ok 200 .null)
     (Or.inr (by decide))⟩

-- ═══════════════════════════════════════════════════════════════════════════
-- SESSION RECORDER STORAGE AND ROUTES (`/v1/sessions/events`, `/v1/sessions/export`)
-- ═══════════════════════════════════════════════════════════════════════════

/-- One row of the `session_events` table (migration `001_session_events.sql`):
append-only, ordered by `timestamp_utc` for retrieval.  ISO-8601 timestamps
compare chronologically as strings. -/
structure SessionEvent where
  id : String
  session_id : String
  user_id : String
  event_type : String
  event_payload : Json
  timestamp_utc : String
deriving Inhabited

/-- Ascending `timestamp_utc` order (`{ ascending: true }`). -/
def tsLe (a b : SessionEvent) : Prop := a.timestamp_utc ≤ b.timestamp_utc

/-- Descending `timestamp_utc` order (`{ ascending: false }`). -/
def tsGe (a b : SessionEvent) : Prop := b.timestamp_utc ≤ a.timestamp_utc

instance : DecidableRel tsLe :=
  fun a b => inferInstanceAs (Decidable (a.timestamp_utc ≤ b.timestamp_utc))

instance : DecidableRel tsGe :=
  fun a b => inferInstanceAs (Decidable (b.timestamp_utc ≤ a.timestamp_utc))

/-- Insertion step of the ORDER BY model. -/
def insertBy (r : SessionEvent → SessionEvent → Prop) [DecidableRel r]
    (e : SessionEvent) : List SessionEvent → List SessionEvent
  | [] => [e]
  | x :: xs => if r e x then e :: x :: xs else x :: insertBy r e xs

/-- Model of Postgres `ORDER BY` over the fetched rows (insertion sort by
the given comparison). -/
def orderBy (r : SessionEvent → SessionEvent → Prop) [DecidableRel r] :
    List SessionEvent → List SessionEvent
  | [] => []
  | e :: es => insertBy r e (orderBy r es)

/-- Export query: `user_id` and `session_id` filters, oldest-first. -/
def exportQuery (table : List SessionEvent) (userId sessionId : String) :
    List SessionEvent :=
  orderBy tsLe
    (table.filter (fun e => e.user_id == userId && e.session_id == sessionId))

/-- Listing query: `user_id` filter, optional `session_id` filter,
newest-first, then `range(offset, offset + limit - 1)`. -/
def eventsQuery (table : List SessionEvent) (userId sessionId : String)
    (limit offset : Nat) : List SessionEvent :=
  ((orderBy tsGe
      (table.filter (fun e => e.user_id == userId &&
        (sessionId == "" || e.session_id == sessionId)))).drop offset).take
    limit

-- `JSON.stringify` (compact, no spacing; string escaping beyond the
-- literal characters is not modelled — the claims serialize `{}` only).
mutual

/-- `JSON.stringify` on a JSON value. -/
def Json.stringify : Json → String
  | .null => "null"
  | .bool true => "true"
  | .bool false => "false"
  | .num q => if q.den = 1 then toString q.num else toString q
  | .str s => "\"" ++ s ++ "\""
  | .arr xs => "[" ++ stringifyItems xs ++ "]"
  | .obj fs => "\x7b" ++ stringifyFields fs ++ "\x7d"

def stringifyItems : List Json → String
  | [] => ""
  | [x] => Json.stringify x
  | x :: y :: xs => Json.stringify x ++ "," ++ stringifyItems (y :: xs)

def stringifyFields : List (String × Json) → String
  | [] => ""
  | [(k, v)] => "\"" ++ k ++ "\":" ++ Json.stringify v
  | (k, v) :: f :: fs =>
    "\"" ++ k ++ "\":" ++ Json.stringify v ++ "," ++ stringifyFields (f :: fs)

end

/-- `.replace(/"/g, '""')` on the serialized payload. -/
def csvEscape (s : String) : String :=
  ⟨s.data.foldr
    (fun c acc => if c = '"' then '"' :: '"' :: acc else c :: acc) []⟩

/-- `.join("\n")`. -/
def joinLines : List String → String
  | [] => ""
  | [x] => x
  | x :: y :: xs => x ++ "\n" ++ joinLines (y :: xs)

/-- The CSV header row of the export endpoint (trailing newline included,
as in the source). -/
def csvHeader : String := "id,session_id,event_type,timestamp_utc,event_payload\n"

/-- One CSV data row of the export endpoint. -/
def csvRow (e : SessionEvent) : String :=
  e.id ++ ",\"" ++ e.session_id ++ "\",\"" ++ e.event_type ++ "\",\"" ++
    e.timestamp_utc ++ "\",\"" ++
    csvEscape (Json.stringify e.event_payload) ++ "\""

/-- One plain-text line of the export endpoint. -/
def textLine (e : SessionEvent) : String :=
  "[" ++ e.timestamp_utc ++ "] " ++ e.event_type ++ ": " ++
    Json.stringify e.event_payload

/-- Body of an export response. -/
inductive ExportBody where
  | attachment (contentType fileName content : String)
  | json (sessionId : String) (eventCount : Nat)
      (events : List SessionEvent) (exportedAt : String)
      (user : Option String)
  | err (error : String)

/-- An export-endpoint response. -/
structure ExportResponse where
  status : Nat
  body : ExportBody

/-- `GET /metrics-proxy-jwt/v1/sessions/export?session_id=&format=`
(`authResult` has passed the `/v1/*` middleware; `table` is the
`session_events` table; `storageConfigured` is whether the service client
exists). -/
def sessionsExportRoute (table : List SessionEvent) (storageConfigured : Bool)
    (authResult : AuthResult) (sessionId format : String) (now : String) :
    ExportResponse :=
  if sessionId = "" then
    { status := 400, body := .err "session_id query parameter is required" }
  else if !storageConfigured then
    { status := 503, body := .err "Session recording not configured" }
  else
    let events := exportQuery table (authResult.userId.getD "") sessionId
    if format = "csv" then
      { status := 200,
        body := .attachment "text/csv" ("session_" ++ sessionId ++ ".csv")
          (csvHeader ++ joinLines (events.map csvRow)) }
    else if format = "text" then
      let lines := joinLines (events.map textLine)
      { status := 200,
        body := .attachment "text/plain" ("session_" ++ sessionId ++ ".txt")
          (if lines = "" then "No events found" else lines) }
    else
      { status := 200,
        body := .json sessionId events.length events now authResult.email }

/-- A `/v1/sessions/events` response (fields used by the claims). -/
structure EventsResponse where
  status : Nat
  events : List SessionEvent
  limit : Nat
  offset : Nat
  hasMore : Bool

/-- `GET /metrics-proxy-jwt/v1/sessions/events?session_id=&limit=&offset=`:
paginated listing, newest-first. -/
def sessionsEventsRoute (table : List SessionEvent) (storageConfigured : Bool)
    (authResult : AuthResult) (sessionId : String)
    (limitParam offsetParam : Nat) : EventsResponse :=
  let limit := min limitParam 200
  if !storageConfigured then
    { status := 503, events := [], limit := limit, offset := offsetParam,
      hasMore := false }
  else
    let data := eventsQuery table (authResult.userId.getD "") sessionId
      limit offsetParam
    { status := 200, events := data, limit := limit, offset := offsetParam,
      hasMore := data.length == limit }

-- ═══════════════════════════════════════════════════════════════════════════
-- Ordering lemmas for the session queries
-- ═══════════════════════════════════════════════════════════════════════════

theorem mem_insertBy (r : SessionEvent → SessionEvent → Prop) [DecidableRel r]
    (e : SessionEvent) :
    ∀ (l : List SessionEvent) (b : SessionEvent),
      b ∈ insertBy r e l → b = e ∨ b ∈ l
  | [], b, hb => by
    simp only [insertBy, List.mem_singleton] at hb
    exact Or.inl hb
  | x :: xs, b, hb => by
    rw [insertBy] at hb
    by_cases hre : r e x
    · rw [if_pos hre] at hb
      rcases List.mem_cons.mp hb with h1 | h1
      · exact Or.inl h1
      · exact Or.inr h1
    · rw [if_neg hre] at hb
      rcases List.mem_cons.mp hb with h1 | h1
      · exact Or.inr (by rw [h1]; exact List.mem_cons_self _ _)
      · rcases mem_insertBy r e xs b h1 with h2 | h2
        · exact Or.inl h2
        · exact Or.inr (List.mem_cons_of_mem _ h2)

theorem pairwise_insertBy (r : SessionEvent → SessionEvent → Prop)
    [DecidableRel r] (htot : ∀ a b, r a b ∨ r b a)
    (htrans : ∀ a b c, r a b → r b c → r a c) (e : SessionEvent) :
    ∀ (l : List SessionEvent), l.Pairwise r → (insertBy r e l).Pairwise r
  | [], _ => List.pairwise_singleton r e
  | x :: xs, h => by
    obtain ⟨hx, hxs⟩ := List.pairwise_cons.mp h
    rw [insertBy]
    by_cases hre : r e x
    · rw [if_pos hre]
      refine List.pairwise_cons.mpr ⟨?_, h⟩
      intro b hb
      rcases List.mem_cons.mp hb with h1 | h1
      · rw [h1]; exact hre
      · exact htrans e x b hre (hx b h1)
    · rw [if_neg hre]
      have hxe : r x e := (htot e x).resolve_left hre
      refine List.pairwise_cons.mpr ⟨?_, pairwise_insertBy r htot htrans e xs hxs⟩
      intro b hb
      rcases mem_insertBy r e xs b hb with h1 | h1
      · rw [h1]; exact hxe
      · exact hx b h1

theorem pairwise_orderBy (r : SessionEvent → SessionEvent → Prop)
    [DecidableRel r] (htot : ∀ a b, r a b ∨ r b a)
    (htrans : ∀ a b c, r a b → r b c → r a c) :
    ∀ l : List SessionEvent, (orderBy r l).Pairwise r
  | [] => List.Pairwise.nil
  | e :: es =>
    pairwise_insertBy r htot htrans e (orderBy r es)
      (pairwise_orderBy r htot htrans es)

theorem perm_insertBy (r : SessionEvent → SessionEvent → Prop)
    [DecidableRel r] (e : SessionEvent) :
    ∀ l : List SessionEvent, (insertBy r e l).Perm (e :: l)
  | [] => List.Perm.refl _
  | x :: xs => by
    rw [insertBy]
    by_cases hre : r e x
    · simp only [if_pos hre]
      exact List.Perm.refl _
    · simp only [if_neg hre]
      exact ((perm_insertBy r e xs).cons x).trans (List.Perm.swap e x xs)

theorem perm_orderBy (r : SessionEvent → SessionEvent → Prop)
    [DecidableRel r] :
    ∀ l : List SessionEvent, (orderBy r l).Perm l
  | [] => List.Perm.refl _
  | e :: es =>
    ((perm_insertBy r e (orderBy r es)).trans
      ((perm_orderBy r es).cons e))

theorem tsLe_total : ∀ a b, tsLe a b ∨ tsLe b a :=
  fun a b => le_total a.timestamp_utc b.timestamp_utc

theorem tsLe_trans : ∀ a b c, tsLe a b → tsLe b c → tsLe a c :=
  fun _ _ _ h1 h2 => le_trans h1 h2

theorem tsGe_total : ∀ a b, tsGe a b ∨ tsGe b a :=
  fun a b => le_total b.timestamp_utc a.timestamp_utc

theorem tsGe_trans : ∀ a b c, tsGe a b → tsGe b c → tsGe a c :=
  fun _ _ _ h1 h2 => le_trans h2 h1

-- ═══════════════════════════════════════════════════════════════════════════
-- CLAIM C9
-- ═══════════════════════════════════════════════════════════════════════════

/-- Claim C9: A csv export of a session holding exactly one `"login"` event
with empty payload produces the header row
`id,session_id,event_type,timestamp_utc,event_payload` followed by exactly
one data row carrying the event's id, session id, type, timestamp and the
serialized payload `"{}"`; and every export (any format) presents the events
oldest-first — ascending `timestamp_utc` — the reverse of the paginated
listing's newest-first (descending) order, both queries ranging over the
same filtered rows. -/
theorem C9_export_csv_and_ordering (e : SessionEvent) (auth : AuthResult)
    (uid sid now : String) (hu : auth.userId = some uid)
    (heu : e.user_id = uid) (hes : e.session_id = sid)
    (het : e.event_type = "login") (hep : e.event_payload = Json.obj [])
    (hsid : sid ≠ "") :
    sessionsExportRoute [e] true auth sid "csv" now =
      { status := 200,
        body := .attachment "text/csv" ("session_" ++ sid ++ ".csv")
          ("id,session_id,event_type,timestamp_utc,event_payload\n" ++
            (e.id ++ ",\"" ++ sid ++ "\",\"" ++ "login" ++ "\",\"" ++
              e.timestamp_utc ++ "\",\"" ++ "\x7b\x7d" ++ "\"")) } ∧
    (∀ (table : List SessionEvent) (u s : String),
      (exportQuery table u s).Pairwise tsLe) ∧
    (∀ (table : List SessionEvent) (a2 : AuthResult) (s now2 : String),
      s ≠ "" →
      sessionsExportRoute table true a2 s "json" now2 =
        { status := 200,
          body := .json s (exportQuery table (a2.userId.getD "") s).length
            (exportQuery table (a2.userId.getD "") s) now2 a2.email }) ∧
    (∀ (table : List SessionEvent) (u s : String) (lim off : Nat),
      (eventsQuery table u s lim off).Pairwise tsGe) ∧
    (∀ (table : List SessionEvent) (u s : String), s ≠ "" →
      (eventsQuery table u s table.length 0).Perm (exportQuery table u s)) := by
  refine ⟨?_, ?_, ?_, ?_, ?_⟩
  · have hq : exportQuery [e] (auth.userId.getD "") sid = [e] := by
      rw [hu]
      simp [exportQuery, heu, hes, orderBy, insertBy]
    have hrow : csvRow e = e.id ++ ",\"" ++ sid ++ "\",\"" ++ "login" ++
        "\",\"" ++ e.timestamp_utc ++ "\",\"" ++ "\x7b\x7d" ++ "\"" := by
      rw [csvRow, hes, het, hep]
      rfl
    simp [sessionsExportRoute, hsid, hq, hrow, joinLines, csvHeader]
  · intro table u s
    simp only [exportQuery]
    exact pairwise_orderBy tsLe tsLe_total tsLe_trans _
  · intro table a2 s now2 hs
    simp [sessionsExportRoute, hs]
  · intro table u s lim off
    simp only [eventsQuery]
    exact List.Pairwise.sublist
      ((List.take_sublist _ _).trans (List.drop_sublist _ _))
      (pairwise_orderBy tsGe tsGe_total tsGe_trans _)
  · intro table u s hs
    have hbs : (s == "") = false := beq_eq_false_iff_ne.mpr hs
    have hfeq : table.filter
        (fun x => x.user_id == u && (s == "" || x.session_id == s)) =
        table.filter (fun x => x.user_id == u && x.session_id == s) := by
      apply List.filter_congr
      intro a _
      rw [hbs]
      simp
    have hlenQ : (orderBy tsGe
        (table.filter (fun x => x.user_id == u && x.session_id == s))).length
        ≤ table.length := by
      rw [(perm_orderBy tsGe _).length_eq]
      exact List.length_filter_le _ _
    have hev : eventsQuery table u s table.length 0 = orderBy tsGe
        (table.filter (fun x => x.user_id == u && x.session_id == s)) := by
      rw [eventsQuery, hfeq, List.drop_zero, List.take_of_length_le hlenQ]
    rw [hev, exportQuery]
    exact ((perm_orderBy tsGe _).trans (perm_orderBy tsLe _).symm)

/-- Fixture: one login event with empty payload. -/
def eW : SessionEvent :=
  { id := "42", session_id := "sess-1", user_id := "u1",
    event_type := "login", event_payload := Json.obj [],
    timestamp_utc := "2026-01-01T00:00:00+00:00" }

/-- Witness for C9 at a concrete single-event session. -/
theorem C9_export_csv_and_ordering_witness :
    (authW.userId = some "u1" ∧ eW.user_id = "u1" ∧
      eW.session_id = "sess-1" ∧ eW.event_type = "login" ∧
      eW.event_payload = Json.obj [] ∧ ("sess-1" : String) ≠ "") ∧
    (sessionsExportRoute [eW] true authW "sess-1" "csv" "2026-01-02" =
      { status := 200,
        body := .attachment "text/csv" ("session_" ++ "sess-1" ++ ".csv")
          ("id,session_id,event_type,timestamp_utc,event_payload\n" ++
            (eW.id ++ ",\"" ++ "sess-1" ++ "\",\"" ++ "login" ++ "\",\"" ++
              eW.timestamp_utc ++ "\",\"" ++ "\x7b\x7d" ++ "\"")) } ∧
    (∀ (table : List SessionEvent) (u s : String),
      (exportQuery table u s).Pairwise tsLe) ∧
    (∀ (table : List SessionEvent) (a2 : AuthResult) (s now2 : String),
      s ≠ "" →
      sessionsExportRoute table true a2 s "json" now2 =
        { status := 200,
          body := .json s (exportQuery table (a2.userId.getD "") s).length
            (exportQuery table (a2.userId.getD "") s) now2 a2.email }) ∧
    (∀ (table : List SessionEvent) (u s : String) (lim off : Nat),
      (eventsQuery table u s lim off).Pairwise tsGe) ∧
    (∀ (table : List SessionEvent) (u s : String), s ≠ "" →
      (eventsQuery table u s table.length 0).Perm (exportQuery table u s))) :=
  ⟨⟨rfl, rfl, rfl, rfl, rfl, by decide⟩,
   C9_export_csv_and_ordering eW authW "u1" "sess-1" "2026-01-02" rfl rfl rfl
     rfl rfl (by decide)⟩

end MetricsProxy
